import Mathlib

/-!
Verification of the openclaw-email-triage-v1-plugin decision pipeline.

This file gives a shallow embedding, in Lean 4, of the parts of the plugin
exercised by the specification claims:

* `retry.run_with_retries`        (src/openclaw_email_triage_v1_plugin/retry.py)
* SHA-256 (pure Nat implementation, used by the canary selector and the
  telemetry hashing helpers, matching Python hashlib.sha256)
* `telemetry.redact_snippet`, `telemetry.build_decision_event`,
  `telemetry.JsonlDecisionSink.log` (telemetry.py) including a small
  backtracking matcher reproducing the behaviour of the two `re` patterns
  exactly as they appear in the source (note the doubled backslashes in the
  raw strings of the source: the compiled patterns require literal backslash
  characters in the subject text)
* `contracts.EmailTriageRequest` / `contracts.EmailTriageResponse`
  (contracts.py), as plain structures
* `config.PluginConfig.from_sources` and its `_parse_bool` / `_parse_int` /
  `_parse_float` helpers (config.py)
* `idempotency.InMemoryIdempotencyStore` (idempotency.py)
* `plugin.EmailTriageCommand.execute`, `_apply_action`, `_is_in_canary`
  (plugin.py), with the inference client, action runtime and wall clock
  passed in as explicit parameters, and the observable effects (runtime
  calls, telemetry events, ledger writes, inference invocation count)
  returned explicitly.

Python floats are modelled as rationals: every float literal in the source
and every arithmetic operation the embedded code performs on them (ordering
comparisons, clamping, multiplication by powers of two) is exact in that
range, so no rounding behaviour is lost.
-/

namespace Triage

/- ------------------------------------------------------------------ -/
/- retry.py : run_with_retries                                         -/
/- ------------------------------------------------------------------ -/

/-- Observable outcome of one `run_with_retries` invocation: the returned
value or propagated error, the arguments passed to `sleep_fn` in order, and
how many times the wrapped operation was invoked. -/
structure RetryOutcome (E A : Type) where
  result : Except E A
  sleeps : List ℚ
  calls : Nat
deriving Repr

/-- Loop body of `run_with_retries` (retry.py lines 19-30).  The Python
`func` is a zero-argument callable whose behaviour can change between
invocations; it is modelled as `outcomes : Nat → Except E A`, giving the
result of its k-th invocation.  `attempt` is the loop index and `fuel` the
number of loop iterations still available after this one
(`max_retries - attempt`). -/
def runWithRetriesFrom (outcomes : Nat → Except E A) (base_backoff_ms : ℚ) :
    Nat → Nat → RetryOutcome E A
  | attempt, 0 =>
    match outcomes attempt with
    | Except.ok v => ⟨Except.ok v, [], 1⟩
    | Except.error e => ⟨Except.error e, [], 1⟩
  | attempt, fuel + 1 =>
    match outcomes attempt with
    | Except.ok v => ⟨Except.ok v, [], 1⟩
    | Except.error _ =>
      let rest := runWithRetriesFrom outcomes base_backoff_ms (attempt + 1) fuel
      ⟨rest.result, (base_backoff_ms / 1000) * 2 ^ attempt :: rest.sleeps, rest.calls + 1⟩

/-- Embeds `run_with_retries(func, max_retries, base_backoff_ms, sleep_fn)`
(retry.py lines 11-30): invoke `func`; on success return its value; on
failure, if `attempt >= max_retries` re-raise the last error, else sleep
`(base_backoff_ms / 1000) * 2 ** attempt` seconds and retry. -/
def run_with_retries (outcomes : Nat → Except E A) (max_retries : Nat)
    (base_backoff_ms : ℚ) : RetryOutcome E A :=
  runWithRetriesFrom outcomes base_backoff_ms 0 max_retries

/- ------------------------------------------------------------------ -/
/- SHA-256 (hashlib.sha256), pure Nat implementation                   -/
/- ------------------------------------------------------------------ -/

namespace SHA256

/-- The word modulus, 2^32. -/
def M32 : Nat := 4294967296

/-- Rotate a 32-bit word right by k. -/
def rotr (k n : Nat) : Nat := ((n >>> k) ||| (n <<< (32 - k))) % M32

/-- UTF-8 encoding of one character (the `str.encode("utf-8")` step). -/
def utf8Bytes (c : Char) : List Nat :=
  let n := c.toNat
  if n < 128 then [n]
  else if n < 2048 then
    [192 ||| (n >>> 6), 128 ||| (n &&& 63)]
  else if n < 65536 then
    [224 ||| (n >>> 12), 128 ||| ((n >>> 6) &&& 63), 128 ||| (n &&& 63)]
  else
    [240 ||| (n >>> 18), 128 ||| ((n >>> 12) &&& 63),
     128 ||| ((n >>> 6) &&& 63), 128 ||| (n &&& 63)]

/-- UTF-8 bytes of a string. -/
def strBytes (s : String) : List Nat := (s.data.map utf8Bytes).flatten

/-- Big-endian 8-byte encoding of the bit length. -/
def be8 (n : Nat) : List Nat :=
  (List.range 8).map (fun i => (n >>> (8 * (7 - i))) &&& 255)

/-- SHA-256 padding: append 0x80, zeros to 56 mod 64, then the 8-byte
big-endian bit length. -/
def padMessage (msg : List Nat) : List Nat :=
  let L := msg.length
  let z := (119 - L % 64) % 64
  msg ++ 128 :: List.replicate z 0 ++ be8 (8 * L)

/-- Group bytes into big-endian 32-bit words. -/
def toWords : List Nat → List Nat
  | a :: b :: c :: d :: rest => (((a * 256 + b) * 256 + c) * 256 + d) :: toWords rest
  | _ => []

/-- Split a word list into 16-word blocks (structural recursion on a fuel
bound so the definition reduces in the kernel; the fuel `ws.length` can
never be exhausted since each step drops at least one element). -/
def toBlocksFuel : Nat → List Nat → List (List Nat)
  | 0, _ => []
  | _, [] => []
  | fuel + 1, ws => ws.take 16 :: toBlocksFuel fuel (ws.drop 16)

/-- Split a word list into 16-word blocks. -/
def toBlocks (ws : List Nat) : List (List Nat) := toBlocksFuel ws.length ws

def smallSigma0 (x : Nat) : Nat := rotr 7 x ^^^ rotr 18 x ^^^ (x >>> 3)
def smallSigma1 (x : Nat) : Nat := rotr 17 x ^^^ rotr 19 x ^^^ (x >>> 10)
def bigSigma0 (x : Nat) : Nat := rotr 2 x ^^^ rotr 13 x ^^^ rotr 22 x
def bigSigma1 (x : Nat) : Nat := rotr 6 x ^^^ rotr 11 x ^^^ rotr 25 x
def ch (x y z : Nat) : Nat := (x &&& y) ^^^ ((x ^^^ 4294967295) &&& z)
def maj (x y z : Nat) : Nat := (x &&& y) ^^^ (x &&& z) ^^^ (y &&& z)

/-- Message-schedule extension; `ws` holds the words most-recent-first. -/
def extend (ws : List Nat) : Nat → List Nat
  | 0 => ws
  | k + 1 =>
    extend ((smallSigma1 (ws.getD 1 0) + ws.getD 6 0 +
             smallSigma0 (ws.getD 14 0) + ws.getD 15 0) % M32 :: ws) k

/-- The 64-word message schedule of one block. -/
def schedule (block : List Nat) : List Nat := (extend block.reverse 48).reverse

/-- Working variables a..h of the compression loop. -/
structure Hs where
  a : Nat
  b : Nat
  c : Nat
  d : Nat
  e : Nat
  f : Nat
  g : Nat
  h : Nat

/-- One compression round, consuming one (round constant, schedule word)
pair. -/
def roundStep (st : Hs) (kw : Nat × Nat) : Hs :=
  let t1 := (st.h + bigSigma1 st.e + ch st.e st.f st.g + kw.1 + kw.2) % M32
  let t2 := (bigSigma0 st.a + maj st.a st.b st.c) % M32
  ⟨(t1 + t2) % M32, st.a, st.b, st.c, (st.d + t1) % M32, st.e, st.f, st.g⟩

/-- The 64 round constants of FIPS 180-4, written in decimal. -/
def K : List Nat :=
  [1116352408, 1899447441, 3049323471, 3921009573, 961987163,
   1508970993, 2453635748, 2870763221, 3624381080, 310598401,
   607225278, 1426881987, 1925078388, 2162078206, 2614888103,
   3248222580, 3835390401, 4022224774, 264347078, 604807628,
   770255983, 1249150122, 1555081692, 1996064986, 2554220882,
   2821834349, 2952996808, 3210313671, 3336571891, 3584528711,
   113926993, 338241895, 666307205, 773529912, 1294757372,
   1396182291, 1695183700, 1986661051, 2177026350, 2456956037,
   2730485921, 2820302411, 3259730800, 3345764771, 3516065817,
   3600352804, 4094571909, 275423344, 430227734, 506948616,
   659060556, 883997877, 958139571, 1322822218, 1537002063,
   1747873779, 1955562222, 2024104815, 2227730452, 2361852424,
   2428436474, 2756734187, 3204031479, 3329325298]

/-- The initial hash value of FIPS 180-4, written in decimal. -/
def H0 : List Nat :=
  [1779033703, 3144134277, 1013904242,
   2773480762, 1359893119, 2600822924,
   528734635, 1541459225]

/-- Compress one 16-word block into the running hash. -/
def compress (h : List Nat) (block : List Nat) : List Nat :=
  let w := schedule block
  let init : Hs := ⟨h.getD 0 0, h.getD 1 0, h.getD 2 0, h.getD 3 0,
                    h.getD 4 0, h.getD 5 0, h.getD 6 0, h.getD 7 0⟩
  let st := (K.zip w).foldl roundStep init
  [(init.a + st.a) % M32, (init.b + st.b) % M32, (init.c + st.c) % M32,
   (init.d + st.d) % M32, (init.e + st.e) % M32, (init.f + st.f) % M32,
   (init.g + st.g) % M32, (init.h + st.h) % M32]

/-- The eight 32-bit words of the SHA-256 digest of the UTF-8
bytes. -/
def sha256Words (s : String) : List Nat :=
  (toBlocks (toWords (padMessage (strBytes s)))).foldl compress H0

/-- Lowercase hex digit. -/
def hexDigit (n : Nat) : Char :=
  if n < 10 then Char.ofNat (48 + n) else Char.ofNat (87 + n)

/-- Lowercase 8-hex-digit rendering of a 32-bit word. -/
def toHex8 (n : Nat) : String :=
  String.mk ((List.range 8).map (fun i => hexDigit ((n >>> (4 * (7 - i))) &&& 15)))

/-- Computes `hashlib.sha256(s.encode("utf-8")).hexdigest()`. -/
def hexdigest (s : String) : String :=
  String.join ((sha256Words s).map toHex8)

/-- Value of a lowercase hex digit character. -/
def hexVal (c : Char) : Nat := if c.toNat < 58 then c.toNat - 48 else c.toNat - 87

/-- Parses `int(s, 16)` for a lowercase hex string. -/
def hexToNat (s : String) : Nat := s.data.foldl (fun acc c => acc * 16 + hexVal c) 0

end SHA256

/- ------------------------------------------------------------------ -/
/- telemetry.py : the two re patterns and redact_snippet               -/
/- ------------------------------------------------------------------ -/

namespace Re

/-- One token of a linear regular expression: a single character matching a
class, or a greedy at-least-n repetition of a class.  This is exactly the
shape of the two patterns compiled in telemetry.py (no alternation, no
grouping), so a token list models them faithfully. -/
inductive Tok where
  | one (p : Char → Bool)
  | atLeast (n : Nat) (p : Char → Bool)

/-- Greedy backtracking over a repetition: try consuming `k` characters,
counting down (the Python greedy quantifier tries the longest first), stop at
the lower bound `lo`; on success return consumed-count plus the consumption of the rest. -/
def descend (rest : List Char → Option Nat) (s : List Char) (lo : Nat) :
    Nat → Option Nat
  | 0 =>
    if lo = 0 then (rest s).map (fun m => m) else none
  | k + 1 =>
    if k + 1 < lo then none
    else
      match rest (s.drop (k + 1)) with
      | some m => some (k + 1 + m)
      | none => descend rest s lo k

/-- Match a token list at the head of `s`, returning the number of
characters consumed by the leftmost (greedy, backtracking) match, as
the Python `re` engine would for these alternation-free patterns. -/
def matchToks : List Tok → (List Char → Option Nat)
  | [] => fun _ => some 0
  | Tok.one p :: ts => fun s =>
    match s with
    | [] => none
    | c :: s2 => if p c then (matchToks ts s2).map (fun m => m + 1) else none
  | Tok.atLeast n p :: ts => fun s =>
    descend (matchToks ts) s n (s.takeWhile p).length

/-- The `re.sub` scanning loop: at each position try a match; replace it and
resume after it, otherwise keep the character and advance.  The fuel is the
remaining length, which each step strictly decreases (the patterns used
here cannot match the empty string; a zero-width match is treated as no
match, which is unreachable for them). -/
def subFuel (pat : List Tok) (repl : List Char) : Nat → List Char → List Char
  | 0, s => s
  | _, [] => []
  | fuel + 1, c :: rest =>
    match matchToks pat (c :: rest) with
    | some (n + 1) => repl ++ subFuel pat repl fuel ((c :: rest).drop (n + 1))
    | _ => c :: subFuel pat repl fuel rest

/-- Computes `pattern.sub(repl, s)` for a token-list pattern. -/
def reSub (pat : List Tok) (repl : String) (s : String) : String :=
  String.mk (subFuel pat repl.data s.data.length s.data)

end Re

namespace Telemetry

/-- The class `[A-Za-z0-9._%+-]`. -/
def isEmailLocalChar (c : Char) : Bool :=
  c.isAlpha || c.isDigit || c == Char.ofNat 46 || c == Char.ofNat 95 ||
  c == Char.ofNat 37 || c == Char.ofNat 43 || c == Char.ofNat 45

/-- The class `[A-Za-z0-9.-]`. -/
def isDomainChar (c : Char) : Bool :=
  c.isAlpha || c.isDigit || c == Char.ofNat 46 || c == Char.ofNat 45

/-- A literal backslash character. -/
def bslash : Char := Char.ofNat 92

/-- Embeds `_EMAIL_PATTERN = re.compile(r"\\b[A-Za-z0-9._%+-]+@[A-Za-z0-9.-]+\\.[A-Za-z]{2,}\\b")`
(telemetry.py line 15).  In the source the pattern is a *raw* string in
which every backslash is doubled, so the regex engine receives `\\` (an
escaped literal backslash) followed by a literal letter: the compiled
pattern is  backslash, 'b', local-part class+, '@', domain class+,
backslash, any-but-newline, alpha{2,}, backslash, 'b' — it contains no
word-boundary assertions. -/
def emailPattern : List Re.Tok :=
  [Re.Tok.one (fun c => c == bslash), Re.Tok.one (fun c => c == Char.ofNat 98),
   Re.Tok.atLeast 1 isEmailLocalChar,
   Re.Tok.one (fun c => c == Char.ofNat 64),
   Re.Tok.atLeast 1 isDomainChar,
   Re.Tok.one (fun c => c == bslash), Re.Tok.one (fun c => !(c == Char.ofNat 10)),
   Re.Tok.atLeast 2 Char.isAlpha,
   Re.Tok.one (fun c => c == bslash), Re.Tok.one (fun c => c == Char.ofNat 98)]

/-- Embeds `_LONG_NUMBER_PATTERN = re.compile(r"\\b\\d{4,}\\b")` (telemetry.py
line 16).  With the doubled backslashes of the raw string in the source the
compiled pattern is  backslash, 'b', backslash, 'd'{4,}, backslash, 'b'. -/
def longNumberPattern : List Re.Tok :=
  [Re.Tok.one (fun c => c == bslash), Re.Tok.one (fun c => c == Char.ofNat 98),
   Re.Tok.one (fun c => c == bslash),
   Re.Tok.atLeast 4 (fun c => c == Char.ofNat 100),
   Re.Tok.one (fun c => c == bslash), Re.Tok.one (fun c => c == Char.ofNat 98)]

/-- Embeds `redact_snippet(text, max_chars)` (telemetry.py lines 30-34): truncate
to `max_chars` characters, then apply the two substitutions.  The call in
`build_decision_event` uses the default `max_chars = 180`. -/
def redact_snippet (text : String) (max_chars : Nat) : String :=
  Re.reSub longNumberPattern "[number]"
    (Re.reSub emailPattern "[email]" (String.mk (text.data.take max_chars)))

end Telemetry

/- ------------------------------------------------------------------ -/
/- contracts.py : EmailTriageRequest / EmailTriageResponse             -/
/- ------------------------------------------------------------------ -/

/-- Embeds `contracts.EmailTriageRequest` (contracts.py lines 80-97).  The `date`
field is carried as its ISO string; the embedded pipeline fragment never
computes with it. -/
structure EmailTriageRequest where
  request_id : String
  message_id : String
  thread_id : Option String
  sender : String
  /-- the field `to` of the source (`to` is reserved in Lean) -/
  to_addr : String
  subject : String
  date : String
  body_text : String
  body_html : Option String
  gmail_labels : List String
  gmail_category : Option String
  in_reply_to : Option String
  references : List String
  sent_message_ids : List String
  is_starred : Bool
  is_read : Bool
deriving Repr, DecidableEq

/-- Embeds `contracts.EmailTriageResponse` (contracts.py lines 141-158).
Confidence and threshold are Python floats, modelled as rationals;
`latency_ms` is a Python int. -/
structure EmailTriageResponse where
  decision : String
  confidence : ℚ
  source : String
  reasoning : String
  rule : Option String
  model_version : String
  threshold_used : ℚ
  latency_ms : Int
deriving Repr, DecidableEq

/-- The `__post_init__` validation of `EmailTriageResponse` (contracts.py
lines 152-158). -/
def responseValid (r : EmailTriageResponse) : Prop :=
  (r.decision = "archive" ∨ r.decision = "needs_attention") ∧
  0 ≤ r.confidence ∧ r.confidence ≤ 1 ∧ 0 ≤ r.latency_ms

instance (r : EmailTriageResponse) : Decidable (responseValid r) := by
  unfold responseValid; infer_instance

/- ------------------------------------------------------------------ -/
/- telemetry.py : DecisionEvent, build_decision_event, Jsonl sink      -/
/- ------------------------------------------------------------------ -/

namespace Telemetry

/-- Embeds `telemetry.DecisionEvent` (telemetry.py lines 37-52). -/
structure DecisionEvent where
  timestamp : String
  request_id : String
  message_id : String
  thread_id_hash : String
  sender_domain : String
  subject_hash : String
  snippet_redacted : String
  decision : String
  confidence : ℚ
  source : String
  rule : Option String
  model_version : String
  latency_ms : Int
  action_status : String
deriving Repr, DecidableEq

/-- Embeds `_sha256_hex` (telemetry.py lines 19-20). -/
def sha256_hex (value : String) : String := SHA256.hexdigest value

/-- The address part of `email.utils.parseaddr`, modelled for the plain
address and display-name-plus-angle-bracket forms that the spec describes
(parseaddr itself is lenient RFC 2822 tokenization; only these two shapes
occur among the senders of this system). -/
def parseaddrAddr (sender : String) : String :=
  if sender.data.contains (Char.ofNat 60) then
    String.mk (((sender.data.dropWhile (fun c => !(c == Char.ofNat 60))).drop 1).takeWhile
      (fun c => !(c == Char.ofNat 62)))
  else sender

/-- Embeds `_sender_domain` (telemetry.py lines 23-27): empty when the parsed
address has no `@`, else the part after the last `@`, lower-cased. -/
def sender_domain (sender : String) : String :=
  let addr := parseaddrAddr sender
  if addr.data.contains (Char.ofNat 64) then
    (String.mk ((addr.data.reverse.takeWhile (fun c => !(c == Char.ofNat 64))).reverse)).toLower
  else ""

/-- Embeds `build_decision_event` (telemetry.py lines 94-117).  The wall clock
(`datetime.now(UTC).isoformat()` when no timestamp is supplied) enters as
the explicit `now` string. -/
def build_decision_event (triage_request : EmailTriageRequest)
    (response : EmailTriageResponse) (action_status : String) (now : String) :
    DecisionEvent :=
  { timestamp := now
    request_id := triage_request.request_id
    message_id := triage_request.message_id
    thread_id_hash := sha256_hex (triage_request.thread_id.getD "")
    sender_domain := sender_domain triage_request.sender
    subject_hash := sha256_hex triage_request.subject
    snippet_redacted := redact_snippet triage_request.body_text 180
    decision := response.decision
    confidence := response.confidence
    source := response.source
    rule := response.rule
    model_version := response.model_version
    latency_ms := response.latency_ms
    action_status := action_status }

/-- Four-hex-digit rendering for \\uXXXX escapes. -/
def hex4 (n : Nat) : String :=
  String.mk ((List.range 4).map (fun i => SHA256.hexDigit ((n >>> (4 * (3 - i))) &&& 15)))

/-- The `json.dumps` escaping of one character (default `ensure_ascii=True`):
quote and backslash escaped, the common control characters by their short
escapes, other control and all non-ASCII characters as \\uXXXX (surrogate
pairs above U+FFFF). -/
def jsonEscapeChar (c : Char) : String :=
  let n := c.toNat
  if n = 34 then String.mk [bslash, Char.ofNat 34]
  else if n = 92 then String.mk [bslash, bslash]
  else if n = 10 then String.mk [bslash, Char.ofNat 110]
  else if n = 13 then String.mk [bslash, Char.ofNat 114]
  else if n = 9 then String.mk [bslash, Char.ofNat 116]
  else if n = 8 then String.mk [bslash, Char.ofNat 98]
  else if n = 12 then String.mk [bslash, Char.ofNat 102]
  else if n < 32 then String.mk [bslash, Char.ofNat 117] ++ hex4 n
  else if n < 127 then String.mk [c]
  else if n < 65536 then String.mk [bslash, Char.ofNat 117] ++ hex4 n
  else
    String.mk [bslash, Char.ofNat 117] ++ hex4 (55296 + ((n - 65536) >>> 10)) ++
    String.mk [bslash, Char.ofNat 117] ++ hex4 (56320 + ((n - 65536) &&& 1023))

/-- JSON string literal. -/
def jsonStr (s : String) : String :=
  "\"" ++ String.join (s.data.map jsonEscapeChar) ++ "\""

/-- JSON rendering of a Python float modelled as a rational: exact decimal
expansion when the denominator divides a power of ten (every value the
pipeline serializes does), fraction fallback otherwise.  The digit
rendering abstracts from the shortest-round-trip digit selection of repr; no
claim proved here depends on the chosen digits. -/
def jsonRat (q : ℚ) : String :=
  if q.den = 1 then toString q.num ++ ".0"
  else
    match (List.range 30).find? (fun k => 10 ^ k % q.den = 0) with
    | some k =>
      let scaled := q.num.natAbs * (10 ^ k / q.den)
      let digits := Nat.toDigits 10 scaled
      let padded := List.replicate (k + 1 - digits.length) (Char.ofNat 48) ++ digits
      (if q.num < 0 then "-" else "") ++
        String.mk (padded.take (padded.length - k)) ++ "." ++
        String.mk (padded.drop (padded.length - k))
    | none => toString q.num ++ "/" ++ toString q.den

/-- JSON rendering of `rule` (string or null). -/
def jsonOptStr : Option String → String
  | none => "null"
  | some s => jsonStr s

/-- Embeds `json.dumps(event.to_dict())` with the default separators, keys in the
insertion order of `DecisionEvent.to_dict` (telemetry.py lines 54-70). -/
def jsonDumps (e : DecisionEvent) : String :=
  "\x7b" ++
  "\"timestamp\": " ++ jsonStr e.timestamp ++
  ", \"request_id\": " ++ jsonStr e.request_id ++
  ", \"message_id\": " ++ jsonStr e.message_id ++
  ", \"thread_id_hash\": " ++ jsonStr e.thread_id_hash ++
  ", \"sender_domain\": " ++ jsonStr e.sender_domain ++
  ", \"subject_hash\": " ++ jsonStr e.subject_hash ++
  ", \"snippet_redacted\": " ++ jsonStr e.snippet_redacted ++
  ", \"decision\": " ++ jsonStr e.decision ++
  ", \"confidence\": " ++ jsonRat e.confidence ++
  ", \"source\": " ++ jsonStr e.source ++
  ", \"rule\": " ++ jsonOptStr e.rule ++
  ", \"model_version\": " ++ jsonStr e.model_version ++
  ", \"latency_ms\": " ++ toString e.latency_ms ++
  ", \"action_status\": " ++ jsonStr e.action_status ++
  "\x7d"

/-- Embeds `JsonlDecisionSink.log` (telemetry.py lines 82-85), as a function from
the current file contents to the new file contents.  The source appends
`json.dumps(event.to_dict()) + "\\n"`: the string literal in the source is
`"\\n"` with a doubled backslash, i.e. the two characters backslash and
the letter n — not a newline character. -/
def jsonlSinkLog (file : String) (e : DecisionEvent) : String :=
  file ++ jsonDumps e ++ String.mk [bslash, Char.ofNat 110]

/-- Logging a list of events in order. -/
def jsonlSinkLogAll (file : String) (es : List DecisionEvent) : String :=
  es.foldl jsonlSinkLog file

/-- Number of newline characters in a string (what "one JSON object per
line" is about: n logged events should contribute n newline-terminated
lines). -/
def newlineCount (s : String) : Nat :=
  (s.data.filter (fun c => c == Char.ofNat 10)).length

end Telemetry

/- ------------------------------------------------------------------ -/
/- Python "%.3f" formatting (used by the threshold-downgrade message)  -/
/- ------------------------------------------------------------------ -/

/-- Round to the nearest integer, ties to even (the rounding performed by the Python
fixed-point float formatting). -/
def roundHalfEven (x : ℚ) : Int :=
  let n := ⌊x⌋
  let frac := x - n
  if frac < 1 / 2 then n
  else if 1 / 2 < frac then n + 1
  else if n % 2 = 0 then n else n + 1

/-- Python `f"{x:.3f}"`: the value scaled by 1000, rounded half-to-even,
rendered with exactly three digits after the decimal point. -/
def fmt3 (x : ℚ) : String :=
  let m := roundHalfEven (x * 1000)
  let sign := if m < 0 ∨ (m = 0 ∧ x < 0) then "-" else ""
  let digits := Nat.toDigits 10 m.natAbs
  let padded := List.replicate (4 - digits.length) (Char.ofNat 48) ++ digits
  sign ++ String.mk (padded.take (padded.length - 3)) ++ "." ++
    String.mk (padded.drop (padded.length - 3))

/- ------------------------------------------------------------------ -/
/- config.py : _parse_bool / _parse_int / _parse_float, from_sources   -/
/- ------------------------------------------------------------------ -/

namespace Config

/-- A Python configuration value as it can appear in the plugin-config
mapping: None, a string, a bool, an int or a float (floats as exact
rationals). -/
inductive PyVal where
  | none
  | str (s : String)
  | bool (b : Bool)
  | int (n : Int)
  | float (q : ℚ)
deriving Repr, DecidableEq

/-- Python truthiness of a configuration value. -/
def truthy : PyVal → Bool
  | PyVal.none => false
  | PyVal.str s => !(s == "")
  | PyVal.bool b => b
  | PyVal.int n => decide (n ≠ 0)
  | PyVal.float q => decide (q ≠ 0)

/-- Python `str(...)` of a configuration value (float rendering delegated
to the same decimal rendering used for JSON; no proved claim inspects the
string of a float-valued option). -/
def pyStr : PyVal → String
  | PyVal.none => "None"
  | PyVal.str s => s
  | PyVal.bool b => if b then "True" else "False"
  | PyVal.int n => toString n
  | PyVal.float q => Telemetry.jsonRat q

/-- ASCII whitespace as removed by the Python `str.strip()`. -/
def isPySpace (c : Char) : Bool :=
  c == Char.ofNat 32 || c == Char.ofNat 9 || c == Char.ofNat 10 ||
  c == Char.ofNat 13 || c == Char.ofNat 11 || c == Char.ofNat 12

/-- Python `s.strip()`: drop leading and trailing whitespace. -/
def pyStrip (s : String) : String :=
  String.mk (((s.data.dropWhile isPySpace).reverse.dropWhile isPySpace).reverse)

/-- Python `s.lower()` (ASCII letters; sufficient for the recognized
option tokens). -/
def pyLower (s : String) : String := String.mk (s.data.map Char.toLower)

/-- Embeds `_parse_bool(value, default)` (config.py lines 12-25): None and
non-string non-bool values give the default; strings are stripped,
lower-cased and matched against the two accepted sets, anything else gives
the default. -/
def parse_bool (value : PyVal) (dflt : Bool) : Bool :=
  match value with
  | PyVal.none => dflt
  | PyVal.bool b => b
  | PyVal.str s =>
    let normalized := pyLower (pyStrip s)
    if ["1", "true", "yes", "y", "on"].contains normalized then true
    else if ["0", "false", "no", "n", "off"].contains normalized then false
    else dflt
  | _ => dflt

/-- Digit-string to Nat, or failure. -/
def digitsToNat (cs : List Char) : Option Nat :=
  if cs = [] then Option.none
  else if cs.all Char.isDigit then
    Option.some (cs.foldl (fun a c => a * 10 + (c.toNat - 48)) 0)
  else Option.none

/-- Python `int(s)` on a string: strip, optional sign, decimal digits
(underscore grouping is not modelled; it changes only which strings parse,
not the fallback structure). -/
def pyIntOfString (s : String) : Option Int :=
  match (pyStrip s).data with
  | [] => Option.none
  | c :: rest =>
    if c == Char.ofNat 43 then (digitsToNat rest).map Int.ofNat
    else if c == Char.ofNat 45 then (digitsToNat rest).map (fun n => -(n : Int))
    else (digitsToNat (c :: rest)).map Int.ofNat

/-- Embeds `_parse_int(value, default)` (config.py lines 28-34): `int(value)`
with TypeError/ValueError falling back to the default.  `int` of a float
truncates toward zero; of a bool gives 0/1; of None raises (default). -/
def parse_int (value : PyVal) (dflt : Int) : Int :=
  match value with
  | PyVal.none => dflt
  | PyVal.int n => n
  | PyVal.bool b => if b then 1 else 0
  | PyVal.float q => Int.tdiv q.num q.den
  | PyVal.str s => (pyIntOfString s).getD dflt

/-- Mantissa of a Python float literal: digits, digits.digits, .digits or
digits. -/
def parseMantissa (cs : List Char) : Option ℚ :=
  let ip := cs.takeWhile Char.isDigit
  match cs.drop ip.length with
  | [] => if ip = [] then Option.none else Option.some ((digitsVal ip : Nat) : ℚ)
  | c :: fp =>
    if c == Char.ofNat 46 then
      if fp.all Char.isDigit ∧ ¬(ip = [] ∧ fp = []) then
        Option.some ((digitsVal ip : ℚ) + (digitsVal fp : ℚ) / 10 ^ fp.length)
      else Option.none
    else Option.none
where digitsVal (cs : List Char) : Nat := cs.foldl (fun a c => a * 10 + (c.toNat - 48)) 0

/-- Python `float(s)` on a string: strip, optional sign, mantissa, optional
exponent (inf/nan and underscore grouping not modelled). -/
def pyFloatOfString (s : String) : Option ℚ :=
  let t0 := (pyLower (pyStrip s)).data
  let signAndBody : ℚ × List Char :=
    match t0 with
    | c :: rest =>
      if c == Char.ofNat 43 then (1, rest)
      else if c == Char.ofNat 45 then (-1, rest)
      else (1, t0)
    | [] => (1, [])
  let sign := signAndBody.1
  let body := signAndBody.2
  let mpart := body.takeWhile (fun c => !(c == Char.ofNat 101))
  match body.drop mpart.length with
  | [] => (parseMantissa mpart).map (fun m => sign * m)
  | _ :: ex =>
    let esignAndDigits : Int × List Char :=
      match ex with
      | c :: rest =>
        if c == Char.ofNat 43 then (1, rest)
        else if c == Char.ofNat 45 then (-1, rest)
        else (1, ex)
      | [] => (1, [])
    let ed := esignAndDigits.2
    if ed ≠ [] ∧ ed.all Char.isDigit then
      (parseMantissa mpart).map (fun m =>
        sign * m * (10 : ℚ) ^ (esignAndDigits.1 * (ed.foldl (fun a c => a * 10 + ((c.toNat : Int) - 48)) 0)))
    else Option.none

/-- Embeds `_parse_float(value, default)` (config.py lines 37-43). -/
def parse_float (value : PyVal) (dflt : ℚ) : ℚ :=
  match value with
  | PyVal.none => dflt
  | PyVal.float q => q
  | PyVal.int n => (n : ℚ)
  | PyVal.bool b => if b then 1 else 0
  | PyVal.str s => (pyFloatOfString s).getD dflt

/-- The plugin-config mapping, restricted to the keys `from_sources`
reads.  `Option.none` models an absent key; `some v` a present key whose
value is `v` (possibly Python `None`). -/
structure RawConf where
  inference_base_url : Option PyVal
  inference_api_key_env : Option PyVal
  inference_timeout_ms : Option PyVal
  inference_retries : Option PyVal
  inference_backoff_ms : Option PyVal
  model_version : Option PyVal
  archive_confidence_threshold : Option PyVal
  email_triage_engine : Option PyVal
  email_triage_archive_enabled : Option PyVal
  email_triage_fail_open : Option PyVal
  email_triage_blocklist_enabled : Option PyVal
  email_triage_legacy_rules_enabled : Option PyVal
  shadow_mode : Option PyVal
  canary_percent : Option PyVal
  supported_openclaw_versions : Option PyVal
  telemetry_jsonl_path : Option PyVal
  idempotency_sqlite_path : Option PyVal
  mtls_ca_file : Option PyVal
  mtls_client_cert_file : Option PyVal
  mtls_client_key_file : Option PyVal

/-- The environment, restricted to the variables `from_sources` reads. -/
structure EnvMap where
  EMAIL_TRIAGE_INFERENCE_BASE_URL : Option String
  EMAIL_TRIAGE_ENGINE : Option String
  EMAIL_TRIAGE_ARCHIVE_ENABLED : Option String
  EMAIL_TRIAGE_FAIL_OPEN : Option String
  EMAIL_TRIAGE_BLOCKLIST_ENABLED : Option String
  EMAIL_TRIAGE_LEGACY_RULES_ENABLED : Option String

/-- Models `dict.get(key)`: absent key gives Python None. -/
def getv (o : Option PyVal) : PyVal := o.getD PyVal.none

/-- Models `dict.get(key, default)`. -/
def getvD (o : Option PyVal) (d : PyVal) : PyVal := o.getD d

/-- Models `env.get(VAR, conf.get(key))`: the environment string when the
variable is set, otherwise the configuration value. -/
def envOver (e : Option String) (c : Option PyVal) : PyVal :=
  match e with
  | Option.some s => PyVal.str s
  | Option.none => getv c

/-- Embeds `config.PluginConfig` (config.py lines 46-71) as `from_sources` builds
it.  `inference_base_url` is kept as the raw value the `or`-expression
produced (a truthy configuration value need not be a string in Python). -/
structure PluginConfig where
  inference_base_url : PyVal
  inference_api_key_env : String
  inference_timeout_ms : Int
  inference_retries : Int
  inference_backoff_ms : Int
  model_version : String
  archive_confidence_threshold : ℚ
  email_triage_engine : String
  email_triage_archive_enabled : Bool
  email_triage_fail_open : Bool
  email_triage_blocklist_enabled : Bool
  email_triage_legacy_rules_enabled : Bool
  shadow_mode : Bool
  canary_percent : ℚ
  supported_openclaw_versions : String
  telemetry_jsonl_path : PyVal
  idempotency_sqlite_path : PyVal
  mtls_ca_file : PyVal
  mtls_client_cert_file : PyVal
  mtls_client_key_file : PyVal
deriving Repr, DecidableEq

/-- The expression `conf.get("inference_base_url") or
env.get("EMAIL_TRIAGE_INFERENCE_BASE_URL")` (config.py line 82): the
configuration value when truthy, else the environment string (Python None
when the variable is unset). -/
def mergedBaseUrl (conf : RawConf) (env : EnvMap) : PyVal :=
  if truthy (getv conf.inference_base_url) then getv conf.inference_base_url
  else match env.EMAIL_TRIAGE_INFERENCE_BASE_URL with
       | Option.some s => PyVal.str s
       | Option.none => PyVal.none

/-- Embeds `PluginConfig.from_sources(config, environ)` (config.py lines 73-122).
Raises `ConfigError("inference_base_url is required")` exactly when the
`conf.get(...) or env.get(...)` result is falsy; clamps `canary_percent`
into [0, 100]; parses every other option with the fallback parsers
above. -/
def from_sources (conf : RawConf) (env : EnvMap) : Except String PluginConfig :=
  let url := mergedBaseUrl conf env
  if truthy url = false then Except.error "inference_base_url is required"
  else
    let canary0 := parse_float (getv conf.canary_percent) 100
    let canary := max 0 (min 100 canary0)
    Except.ok
      { inference_base_url := url
        inference_api_key_env := pyStr (getvD conf.inference_api_key_env (PyVal.str "OPENCLAW_TRIAGE_API_KEY"))
        inference_timeout_ms := parse_int (getv conf.inference_timeout_ms) 1500
        inference_retries := parse_int (getv conf.inference_retries) 2
        inference_backoff_ms := parse_int (getv conf.inference_backoff_ms) 200
        model_version := pyStr (getvD conf.model_version (PyVal.str "v1"))
        archive_confidence_threshold := parse_float (getv conf.archive_confidence_threshold) (995 / 1000)
        email_triage_engine := pyStr (envOver env.EMAIL_TRIAGE_ENGINE (Option.some (getvD conf.email_triage_engine (PyVal.str "v1"))))
        email_triage_archive_enabled := parse_bool (envOver env.EMAIL_TRIAGE_ARCHIVE_ENABLED conf.email_triage_archive_enabled) true
        email_triage_fail_open := parse_bool (envOver env.EMAIL_TRIAGE_FAIL_OPEN conf.email_triage_fail_open) true
        email_triage_blocklist_enabled := parse_bool (envOver env.EMAIL_TRIAGE_BLOCKLIST_ENABLED conf.email_triage_blocklist_enabled) true
        email_triage_legacy_rules_enabled := parse_bool (envOver env.EMAIL_TRIAGE_LEGACY_RULES_ENABLED conf.email_triage_legacy_rules_enabled) false
        shadow_mode := parse_bool (getv conf.shadow_mode) false
        canary_percent := canary
        supported_openclaw_versions := pyStr (getvD conf.supported_openclaw_versions (PyVal.str ">=1.8.0,<2.0.0"))
        telemetry_jsonl_path := getv conf.telemetry_jsonl_path
        idempotency_sqlite_path := getv conf.idempotency_sqlite_path
        mtls_ca_file := getv conf.mtls_ca_file
        mtls_client_cert_file := getv conf.mtls_client_cert_file
        mtls_client_key_file := getv conf.mtls_client_key_file }

end Config

/- ------------------------------------------------------------------ -/
/- idempotency.py : InMemoryIdempotencyStore                           -/
/- ------------------------------------------------------------------ -/

namespace Idempotency

/-- The `_seen` set of `InMemoryIdempotencyStore` (idempotency.py lines
17-25), as a list of (message_id, decision_version) pairs without
duplicates.  (The SQLite variant has the same insert-if-absent ledger
semantics over its primary key.) -/
abbrev Ledger := List (String × String)

/-- Embeds `is_applied(message_id, decision_version)`: set membership. -/
def is_applied (l : Ledger) (message_id decision_version : String) : Bool :=
  l.contains (message_id, decision_version)

/-- Embeds `mark_applied(message_id, decision_version)`: `set.add`, i.e. insert
if absent. -/
def mark_applied (l : Ledger) (message_id decision_version : String) : Ledger :=
  if l.contains (message_id, decision_version) then l
  else (message_id, decision_version) :: l

end Idempotency

/- ------------------------------------------------------------------ -/
/- plugin.py : EmailTriageCommand                                      -/
/- ------------------------------------------------------------------ -/

namespace Plugin

/-- One invocation of the host action runtime. -/
inductive RtCall where
  | archive_email (message_id : String)
  | keep_in_inbox (message_id : String)
deriving Repr, DecidableEq

/-- A host action runtime, described by which calls raise: the protocol in
runtime.py allows either operation to fail.  A call that raises is still
an invocation (it reached the runtime). -/
structure ActionRuntime where
  archiveRaises : String → Bool
  keepRaises : String → Bool

/-- An error escaping `execute`: an inference-layer error re-raised when
fail-open is off, or an uncaught exception from an action-runtime call. -/
inductive PipeError where
  | inference (msg : String)
  | runtime (call : RtCall)
deriving Repr, DecidableEq

/-- A value in the result dictionary `execute` returns. -/
inductive RVal where
  | s (v : String)
  | q (v : ℚ)
  | i (v : Int)
  | o (v : Option String)
deriving Repr, DecidableEq

/-- The result dictionary, as (key, value) pairs in insertion order. -/
abbrev ResultDict := List (String × RVal)

/-- Embeds `_is_in_canary(message_id)` (plugin.py lines 168-176): always true at
`canary_percent >= 100`, always false at `<= 0`, else the first eight hex
digits of the SHA-256 digest of the message id, as an unsigned integer
modulo 100, compared with `int(canary_percent)` (truncation; equal to the
floor on the open interval (0, 100)). -/
def is_in_canary (cfg : Config.PluginConfig) (message_id : String) : Bool :=
  if 100 ≤ cfg.canary_percent then true
  else if cfg.canary_percent ≤ 0 then false
  else
    let digest := SHA256.hexdigest message_id
    let bucket := SHA256.hexToNat (String.mk (digest.data.take 8)) % 100
    decide ((bucket : Int) < Int.tdiv cfg.canary_percent.num cfg.canary_percent.den)

/-- The defense-in-depth threshold re-check (plugin.py lines 102-119): an
"archive" decision with confidence strictly below the configured threshold
is replaced by a new needs_attention response; anything else passes
through unchanged. -/
def thresholdCheck (cfg : Config.PluginConfig) (response : EmailTriageResponse) :
    EmailTriageResponse :=
  if response.decision = "archive" ∧
     response.confidence < cfg.archive_confidence_threshold then
    { decision := "needs_attention"
      confidence := response.confidence
      source := response.source
      reasoning := "archive confidence below threshold (" ++ fmt3 response.confidence ++
        " < " ++ fmt3 cfg.archive_confidence_threshold ++ ")"
      rule := response.rule
      model_version := response.model_version
      threshold_used := cfg.archive_confidence_threshold
      latency_ms := response.latency_ms }
  else response

/-- Embeds `_apply_action` (plugin.py lines 144-166): the resolved action status,
or the runtime call whose exception escaped, together with the runtime
invocations made in order.  Only the `archive_email` call sits in a
try/except; a raising `keep_in_inbox` propagates. -/
def apply_action (cfg : Config.PluginConfig) (response : EmailTriageResponse)
    (rt : ActionRuntime) (message_id : String) :
    Except PipeError String × List RtCall :=
  if cfg.shadow_mode || !(is_in_canary cfg message_id) then
    if rt.keepRaises message_id then
      (Except.error (PipeError.runtime (RtCall.keep_in_inbox message_id)),
       [RtCall.keep_in_inbox message_id])
    else (Except.ok "shadow_kept", [RtCall.keep_in_inbox message_id])
  else if !(response.decision == "archive") || !cfg.email_triage_archive_enabled then
    if rt.keepRaises message_id then
      (Except.error (PipeError.runtime (RtCall.keep_in_inbox message_id)),
       [RtCall.keep_in_inbox message_id])
    else if !cfg.email_triage_archive_enabled && response.decision == "archive" then
      (Except.ok "archive_disabled_kept", [RtCall.keep_in_inbox message_id])
    else (Except.ok "kept_in_inbox", [RtCall.keep_in_inbox message_id])
  else
    if rt.archiveRaises message_id then
      if rt.keepRaises message_id then
        (Except.error (PipeError.runtime (RtCall.keep_in_inbox message_id)),
         [RtCall.archive_email message_id, RtCall.keep_in_inbox message_id])
      else
        (Except.ok "action_failed",
         [RtCall.archive_email message_id, RtCall.keep_in_inbox message_id])
    else (Except.ok "archived", [RtCall.archive_email message_id])

/-- Everything `execute` observably does in one invocation: the returned
dictionary or propagated error, the ledger afterwards, the telemetry
events logged, the runtime invocations, and how many times
`inference_client.classify` was invoked. -/
structure ExecOutcome where
  result : Except PipeError ResultDict
  store : Idempotency.Ledger
  events : List Telemetry.DecisionEvent
  actions : List RtCall
  infCalls : Nat
deriving Repr

/-- The nine-key result dictionary of a non-duplicate invocation
(plugin.py lines 132-142). -/
def resultDictOf (action_status : String) (response : EmailTriageResponse) :
    ResultDict :=
  [("action_status", RVal.s action_status),
   ("decision", RVal.s response.decision),
   ("confidence", RVal.q response.confidence),
   ("source", RVal.s response.source),
   ("rule", RVal.o response.rule),
   ("reasoning", RVal.s response.reasoning),
   ("model_version", RVal.s response.model_version),
   ("threshold_used", RVal.q response.threshold_used),
   ("latency_ms", RVal.i response.latency_ms)]

/-- The tail of `execute` after the classify step resolved a response
(plugin.py lines 102-142): threshold re-check, action application,
unconditional ledger write, telemetry, result dictionary. -/
def executeTail (cfg : Config.PluginConfig) (store : Idempotency.Ledger)
    (request : EmailTriageRequest) (rt : ActionRuntime) (now : String)
    (response0 : EmailTriageResponse) (infCalls : Nat) : ExecOutcome :=
  let response := thresholdCheck cfg response0
  let applied := apply_action cfg response rt request.message_id
  match applied.1 with
  | Except.error e =>
    { result := Except.error e, store := store, events := [],
      actions := applied.2, infCalls := infCalls }
  | Except.ok action_status =>
    let store2 := Idempotency.mark_applied store request.message_id cfg.model_version
    let event := Telemetry.build_decision_event request response action_status now
    { result := Except.ok (resultDictOf action_status response)
      store := store2
      events := [event]
      actions := applied.2
      infCalls := infCalls }

/-- The synthesized zero-confidence duplicate response (plugin.py lines
57-66). -/
def duplicateResponse (cfg : Config.PluginConfig) : EmailTriageResponse :=
  { decision := "needs_attention"
    confidence := 0
    source := "plugin"
    reasoning := "duplicate message skipped by idempotency guard"
    rule := Option.none
    model_version := cfg.model_version
    threshold_used := cfg.archive_confidence_threshold
    latency_ms := 0 }

/-- The four-key result dictionary of the duplicate-skip path (plugin.py
lines 75-80). -/
def duplicateResultDict (cfg : Config.PluginConfig) : ResultDict :=
  [("action_status", RVal.s "duplicate_skipped"),
   ("decision", RVal.s "needs_attention"),
   ("source", RVal.s "plugin"),
   ("model_version", RVal.s cfg.model_version)]

/-- The fail-open synthesized response (plugin.py lines 91-100), for the
inference error text `e`. -/
def failOpenResponse (cfg : Config.PluginConfig) (e : String) : EmailTriageResponse :=
  { decision := "needs_attention"
    confidence := 0
    source := "plugin"
    reasoning := "fail-open due to inference error: " ++ e
    rule := Option.none
    model_version := cfg.model_version
    threshold_used := cfg.archive_confidence_threshold
    latency_ms := 0 }

/-- Embeds `EmailTriageCommand.execute` (plugin.py lines 53-142), from the point
the event has been parsed into a request.  The successive `classify` outcomes of the
inference client enter as `classify : Nat → Except String
EmailTriageResponse` (the error string standing for the raised
InferenceClientError or SchemaError); the host runtime as `rt`; the wall
clock reading used for the telemetry timestamp as `now`. -/
def execute (cfg : Config.PluginConfig) (store : Idempotency.Ledger)
    (request : EmailTriageRequest)
    (classify : Nat → Except String EmailTriageResponse)
    (rt : ActionRuntime) (now : String) : ExecOutcome :=
  if Idempotency.is_applied store request.message_id cfg.model_version then
    let duplicate := duplicateResponse cfg
    let event := Telemetry.build_decision_event request duplicate "duplicate_skipped" now
    { result := Except.ok (duplicateResultDict cfg)
      store := store
      events := [event]
      actions := []
      infCalls := 0 }
  else
    let retry := run_with_retries classify cfg.inference_retries.toNat
      (cfg.inference_backoff_ms : ℚ)
    match retry.result with
    | Except.error e =>
      if !cfg.email_triage_fail_open then
        { result := Except.error (PipeError.inference e), store := store,
          events := [], actions := [], infCalls := retry.calls }
      else
        executeTail cfg store request rt now (failOpenResponse cfg e) retry.calls
    | Except.ok response =>
      executeTail cfg store request rt now response retry.calls

end Plugin

/- ------------------------------------------------------------------ -/
/- Concrete fixtures (mirroring tests/test_plugin_command.py)          -/
/- ------------------------------------------------------------------ -/

namespace Fixtures

/-- The test-suite configuration: canary 100 %, shadow off, archive
enabled, fail-open on, threshold 0.995, model version v1. -/
def cfg0 : Config.PluginConfig :=
  { inference_base_url := Config.PyVal.str "https://triage.internal"
    inference_api_key_env := "OPENCLAW_TRIAGE_API_KEY"
    inference_timeout_ms := 1500
    inference_retries := 2
    inference_backoff_ms := 200
    model_version := "v1"
    archive_confidence_threshold := 995 / 1000
    email_triage_engine := "v1"
    email_triage_archive_enabled := true
    email_triage_fail_open := true
    email_triage_blocklist_enabled := true
    email_triage_legacy_rules_enabled := false
    shadow_mode := false
    canary_percent := 100
    supported_openclaw_versions := ">=1.8.0,<2.0.0"
    telemetry_jsonl_path := Config.PyVal.none
    idempotency_sqlite_path := Config.PyVal.none
    mtls_ca_file := Config.PyVal.none
    mtls_client_cert_file := Config.PyVal.none
    mtls_client_key_file := Config.PyVal.none }

/-- cfg0 with a 60 % canary. -/
def cfg60 : Config.PluginConfig := { cfg0 with canary_percent := 60 }

/-- cfg0 with shadow mode on. -/
def cfgShadow : Config.PluginConfig := { cfg0 with shadow_mode := true }

/-- cfg0 with fail-open disabled. -/
def cfgClosed : Config.PluginConfig := { cfg0 with email_triage_fail_open := false }

/-- The test-suite email event for message m1. -/
def req0 : EmailTriageRequest :=
  { request_id := "r-m1"
    message_id := "m1"
    thread_id := Option.some "t1"
    sender := "promo@example.com"
    to_addr := "me@example.com"
    subject := "Sale"
    date := "2026-02-14T12:00:00Z"
    body_text := "discount"
    body_html := Option.none
    gmail_labels := ["Category Promotions"]
    gmail_category := Option.some "Promotions"
    in_reply_to := Option.none
    references := []
    sent_message_ids := []
    is_starred := false
    is_read := false }

/-- req0 with a body that contains a raw address and a long digit run. -/
def reqLeaky : EmailTriageRequest :=
  { req0 with body_text := "promo@example.com ref 123456" }

/-- A confident archive verdict. -/
def respArchive : EmailTriageResponse :=
  { decision := "archive"
    confidence := 999 / 1000
    source := "v1"
    reasoning := "safe"
    rule := Option.none
    model_version := "v1"
    threshold_used := 995 / 1000
    latency_ms := 10 }

/-- An archive verdict below the 0.995 threshold. -/
def respLow : EmailTriageResponse := { respArchive with confidence := 9 / 10 }

/-- A runtime whose calls never raise. -/
def rtOk : Plugin.ActionRuntime := ⟨fun _ => false, fun _ => false⟩

/-- A runtime whose archive_email raises and keep_in_inbox succeeds. -/
def rtArchiveFails : Plugin.ActionRuntime := ⟨fun _ => true, fun _ => false⟩

/-- A runtime whose keep_in_inbox raises. -/
def rtKeepFails : Plugin.ActionRuntime := ⟨fun _ => false, fun _ => true⟩

/-- An inference client that always returns the archive verdict. -/
def clsOk : Nat → Except String EmailTriageResponse := fun _ => Except.ok respArchive

/-- An inference client that always raises. -/
def clsFail : Nat → Except String EmailTriageResponse := fun _ => Except.error "down"

/-- A concrete decision event, as logged for req0/respArchive. -/
def ev0 : Telemetry.DecisionEvent :=
  { timestamp := "2026-02-14T12:00:01+00:00"
    request_id := "r-m1"
    message_id := "m1"
    thread_id_hash := "t1h"
    sender_domain := "example.com"
    subject_hash := "sh"
    snippet_redacted := "discount"
    decision := "archive"
    confidence := 999 / 1000
    source := "v1"
    rule := Option.none
    model_version := "v1"
    latency_ms := 10
    action_status := "archived" }

/-- A second concrete decision event. -/
def ev1 : Telemetry.DecisionEvent :=
  { ev0 with message_id := "m2", request_id := "r-m2", action_status := "shadow_kept" }

/-- An empty plugin-config mapping. -/
def confEmpty : Config.RawConf :=
  { inference_base_url := Option.none
    inference_api_key_env := Option.none
    inference_timeout_ms := Option.none
    inference_retries := Option.none
    inference_backoff_ms := Option.none
    model_version := Option.none
    archive_confidence_threshold := Option.none
    email_triage_engine := Option.none
    email_triage_archive_enabled := Option.none
    email_triage_fail_open := Option.none
    email_triage_blocklist_enabled := Option.none
    email_triage_legacy_rules_enabled := Option.none
    shadow_mode := Option.none
    canary_percent := Option.none
    supported_openclaw_versions := Option.none
    telemetry_jsonl_path := Option.none
    idempotency_sqlite_path := Option.none
    mtls_ca_file := Option.none
    mtls_client_cert_file := Option.none
    mtls_client_key_file := Option.none }

/-- An empty environment. -/
def envEmpty : Config.EnvMap :=
  { EMAIL_TRIAGE_INFERENCE_BASE_URL := Option.none
    EMAIL_TRIAGE_ENGINE := Option.none
    EMAIL_TRIAGE_ARCHIVE_ENABLED := Option.none
    EMAIL_TRIAGE_FAIL_OPEN := Option.none
    EMAIL_TRIAGE_BLOCKLIST_ENABLED := Option.none
    EMAIL_TRIAGE_LEGACY_RULES_ENABLED := Option.none }

/-- A config mapping with a valid base URL and malformed values for every
numeric and boolean option, plus an out-of-range canary percentage. -/
def confMalformed : Config.RawConf :=
  { confEmpty with
    inference_base_url := Option.some (Config.PyVal.str "https://triage.internal")
    inference_timeout_ms := Option.some (Config.PyVal.str "soon")
    inference_retries := Option.some (Config.PyVal.str "2.5")
    inference_backoff_ms := Option.some (Config.PyVal.str "ms")
    archive_confidence_threshold := Option.some (Config.PyVal.str "very high")
    shadow_mode := Option.some (Config.PyVal.str "maybe")
    email_triage_archive_enabled := Option.some (Config.PyVal.str "definitely")
    canary_percent := Option.some (Config.PyVal.float 250) }

/-- The configuration `from_sources` builds from `confMalformed`: every
malformed option at its default, the canary clamped to 100. -/
def cfgM : Config.PluginConfig :=
  { inference_base_url := Config.PyVal.str "https://triage.internal"
    inference_api_key_env := "OPENCLAW_TRIAGE_API_KEY"
    inference_timeout_ms := 1500
    inference_retries := 2
    inference_backoff_ms := 200
    model_version := "v1"
    archive_confidence_threshold := 995 / 1000
    email_triage_engine := "v1"
    email_triage_archive_enabled := true
    email_triage_fail_open := true
    email_triage_blocklist_enabled := true
    email_triage_legacy_rules_enabled := false
    shadow_mode := false
    canary_percent := 100
    supported_openclaw_versions := ">=1.8.0,<2.0.0"
    telemetry_jsonl_path := Config.PyVal.none
    idempotency_sqlite_path := Config.PyVal.none
    mtls_ca_file := Config.PyVal.none
    mtls_client_cert_file := Config.PyVal.none
    mtls_client_key_file := Config.PyVal.none }

end Fixtures

/- ------------------------------------------------------------------ -/
/- Helper lemmas                                                       -/
/- ------------------------------------------------------------------ -/

/-- A successful first invocation makes the retry loop return at once. -/
lemma runWithRetriesFrom_ok (outcomes : Nat → Except E A) (B : ℚ) (a fuel : Nat)
    (v : A) (hok : outcomes a = Except.ok v) :
    runWithRetriesFrom outcomes B a fuel = ⟨Except.ok v, [], 1⟩ := by
  cases fuel <;> simp [runWithRetriesFrom, hok]

/-- The retry loop invokes the operation at most fuel + 1 times. -/
lemma runWithRetriesFrom_calls_le (outcomes : Nat → Except E A) (B : ℚ) :
    ∀ fuel a, (runWithRetriesFrom outcomes B a fuel).calls ≤ fuel + 1 := by
  intro fuel
  induction fuel with
  | zero =>
    intro a
    cases h : outcomes a <;> simp [runWithRetriesFrom, h]
  | succ f ih =>
    intro a
    cases h : outcomes a with
    | ok v => simp [runWithRetriesFrom, h]
    | error e =>
      simp only [runWithRetriesFrom, h]
      have := ih (a + 1)
      omega

/-- If the first k invocations (from start `a`) fail and the k-th
succeeds within fuel, the loop returns the success value after exactly k
sleeps of (B/1000)·2^(a+j). -/
lemma runWithRetriesFrom_succeeds (outcomes : Nat → Except E A) (B : ℚ) (v : A) :
    ∀ k a fuel, k ≤ fuel →
    (∀ j, j < k → ∃ e, outcomes (a + j) = Except.error e) →
    outcomes (a + k) = Except.ok v →
    runWithRetriesFrom outcomes B a fuel =
      ⟨Except.ok v, (List.range k).map (fun j => (B / 1000) * 2 ^ (a + j)), k + 1⟩ := by
  intro k
  induction k with
  | zero =>
    intro a fuel _ _ hok
    simpa using runWithRetriesFrom_ok outcomes B a fuel v (by simpa using hok)
  | succ k ih =>
    intro a fuel hk hfail hok
    obtain ⟨fuel, rfl⟩ : ∃ f, fuel = f + 1 := ⟨fuel - 1, by omega⟩
    obtain ⟨e0, he0⟩ := hfail 0 (Nat.succ_pos k)
    rw [Nat.add_zero] at he0
    have hrest := ih (a + 1) fuel (by omega)
      (fun j hj => by
        obtain ⟨e, he⟩ := hfail (j + 1) (by omega)
        exact ⟨e, by rw [show a + 1 + j = a + (j + 1) by omega]; exact he⟩)
      (by rw [show a + 1 + k = a + (k + 1) by omega]; exact hok)
    simp only [runWithRetriesFrom, he0, hrest]
    refine congrArg (fun l => RetryOutcome.mk (Except.ok v) l (k + 1 + 1)) ?_
    rw [List.range_succ_eq_map, List.map_cons, List.map_map]
    refine congrArg₂ List.cons (by rw [Nat.add_zero]) ?_
    exact List.map_congr_left (fun j _ => by
      simp only [Function.comp_apply]
      congr 2
      omega)

/-- If every invocation up to the fuel bound fails, the loop propagates
the last error after fuel sleeps. -/
lemma runWithRetriesFrom_fails (outcomes : Nat → Except E A) (B : ℚ) :
    ∀ fuel a, (∀ j, j ≤ fuel → ∃ e, outcomes (a + j) = Except.error e) →
    ∃ e, outcomes (a + fuel) = Except.error e ∧
      runWithRetriesFrom outcomes B a fuel =
        ⟨Except.error e, (List.range fuel).map (fun j => (B / 1000) * 2 ^ (a + j)), fuel + 1⟩ := by
  intro fuel
  induction fuel with
  | zero =>
    intro a hfail
    obtain ⟨e, he⟩ := hfail 0 (le_refl 0)
    rw [Nat.add_zero] at he
    exact ⟨e, by simpa using he, by simp [runWithRetriesFrom, he]⟩
  | succ f ih =>
    intro a hfail
    obtain ⟨e0, he0⟩ := hfail 0 (Nat.zero_le _)
    rw [Nat.add_zero] at he0
    obtain ⟨e, he, hrest⟩ := ih (a + 1)
      (fun j hj => by
        obtain ⟨e, hee⟩ := hfail (j + 1) (by omega)
        exact ⟨e, by rw [show a + 1 + j = a + (j + 1) by omega]; exact hee⟩)
    refine ⟨e, by rw [show a + (f + 1) = a + 1 + f by omega]; exact he, ?_⟩
    simp only [runWithRetriesFrom, he0, hrest]
    refine congrArg (fun l => RetryOutcome.mk (Except.error e) l (f + 1 + 1)) ?_
    rw [List.range_succ_eq_map, List.map_cons, List.map_map]
    refine congrArg₂ List.cons (by rw [Nat.add_zero]) ?_
    exact List.map_congr_left (fun j _ => by
      simp only [Function.comp_apply]
      congr 2
      omega)

/-- Marking a key makes it applied. -/
lemma is_applied_mark_applied (l : Idempotency.Ledger) (m v : String) :
    Idempotency.is_applied (Idempotency.mark_applied l m v) m v = true := by
  simp only [Idempotency.is_applied, Idempotency.mark_applied]
  split
  · assumption
  · simp

/-- The threshold re-check leaves a non-archive decision unchanged. -/
lemma thresholdCheck_not_archive (cfg : Config.PluginConfig)
    (r : EmailTriageResponse) (h : r.decision ≠ "archive") :
    Plugin.thresholdCheck cfg r = r := by
  rw [Plugin.thresholdCheck, if_neg]
  rintro ⟨h1, _⟩
  exact h h1

/-- For a positive rational, `int(p)` (truncation toward zero) agrees with
the floor. -/
lemma tdiv_num_den_eq_floor (p : ℚ) (hp : 0 < p) :
    Int.tdiv p.num p.den = ⌊p⌋ := by
  rw [Rat.floor_def]
  exact Int.tdiv_eq_ediv (le_of_lt (Rat.num_pos.mpr hp)) (Int.natCast_nonneg _)

/-- The duplicate-skip branch of `execute`, fully evaluated. -/
lemma execute_duplicate (cfg : Config.PluginConfig) (store : Idempotency.Ledger)
    (request : EmailTriageRequest)
    (classify : Nat → Except String EmailTriageResponse)
    (rt : Plugin.ActionRuntime) (now : String)
    (h : Idempotency.is_applied store request.message_id cfg.model_version = true) :
    Plugin.execute cfg store request classify rt now =
      ⟨Except.ok (Plugin.duplicateResultDict cfg), store,
       [Telemetry.build_decision_event request (Plugin.duplicateResponse cfg)
         "duplicate_skipped" now], [], 0⟩ := by
  simp [Plugin.execute, h]

/-- On a fresh key, `execute` with a successful (post-retry) classify
outcome is its tail. -/
lemma execute_fresh_ok (cfg : Config.PluginConfig) (store : Idempotency.Ledger)
    (request : EmailTriageRequest)
    (classify : Nat → Except String EmailTriageResponse)
    (rt : Plugin.ActionRuntime) (now : String) (r : EmailTriageResponse)
    (hfresh : Idempotency.is_applied store request.message_id cfg.model_version = false)
    (hres : (run_with_retries classify cfg.inference_retries.toNat
      (cfg.inference_backoff_ms : ℚ)).result = Except.ok r) :
    Plugin.execute cfg store request classify rt now =
      Plugin.executeTail cfg store request rt now r
        (run_with_retries classify cfg.inference_retries.toNat
          (cfg.inference_backoff_ms : ℚ)).calls := by
  simp [Plugin.execute, hfresh, hres]

/-- On a fresh key, `execute` with an exhausted-retries classify error
either re-raises (fail-open off) or continues with the synthesized
response (fail-open on). -/
lemma execute_fresh_err (cfg : Config.PluginConfig) (store : Idempotency.Ledger)
    (request : EmailTriageRequest)
    (classify : Nat → Except String EmailTriageResponse)
    (rt : Plugin.ActionRuntime) (now : String) (e : String)
    (hfresh : Idempotency.is_applied store request.message_id cfg.model_version = false)
    (hres : (run_with_retries classify cfg.inference_retries.toNat
      (cfg.inference_backoff_ms : ℚ)).result = Except.error e) :
    Plugin.execute cfg store request classify rt now =
      (if cfg.email_triage_fail_open = false then
        ⟨Except.error (Plugin.PipeError.inference e), store, [], [],
          (run_with_retries classify cfg.inference_retries.toNat
            (cfg.inference_backoff_ms : ℚ)).calls⟩
      else
        Plugin.executeTail cfg store request rt now (Plugin.failOpenResponse cfg e)
          (run_with_retries classify cfg.inference_retries.toNat
            (cfg.inference_backoff_ms : ℚ)).calls) := by
  cases hfo : cfg.email_triage_fail_open <;>
    simp [Plugin.execute, hfresh, hres, hfo]

/-- The tail of `execute` when action application resolves a status. -/
lemma executeTail_ok (cfg : Config.PluginConfig) (store : Idempotency.Ledger)
    (request : EmailTriageRequest) (rt : Plugin.ActionRuntime) (now : String)
    (r0 : EmailTriageResponse) (n : Nat) (st : String) (cs : List Plugin.RtCall)
    (h : Plugin.apply_action cfg (Plugin.thresholdCheck cfg r0) rt request.message_id =
      (Except.ok st, cs)) :
    Plugin.executeTail cfg store request rt now r0 n =
      ⟨Except.ok (Plugin.resultDictOf st (Plugin.thresholdCheck cfg r0)),
       Idempotency.mark_applied store request.message_id cfg.model_version,
       [Telemetry.build_decision_event request (Plugin.thresholdCheck cfg r0) st now],
       cs, n⟩ := by
  simp [Plugin.executeTail, h]

/-- The tail of `execute` when an action-runtime call raises outside the
archive try/except. -/
lemma executeTail_err (cfg : Config.PluginConfig) (store : Idempotency.Ledger)
    (request : EmailTriageRequest) (rt : Plugin.ActionRuntime) (now : String)
    (r0 : EmailTriageResponse) (n : Nat) (e : Plugin.PipeError) (cs : List Plugin.RtCall)
    (h : Plugin.apply_action cfg (Plugin.thresholdCheck cfg r0) rt request.message_id =
      (Except.error e, cs)) :
    Plugin.executeTail cfg store request rt now r0 n =
      ⟨Except.error e, store, [], cs, n⟩ := by
  simp [Plugin.executeTail, h]

/-- Action application for a non-archive decision with a working
keep_in_inbox: the message is kept, under one of the two keep statuses. -/
lemma apply_action_not_archive (cfg : Config.PluginConfig)
    (r : EmailTriageResponse) (rt : Plugin.ActionRuntime) (mid : String)
    (hdec : r.decision ≠ "archive") (hkeep : rt.keepRaises mid = false) :
    ∃ st, Plugin.apply_action cfg r rt mid =
      (Except.ok st, [Plugin.RtCall.keep_in_inbox mid]) := by
  have hd : (r.decision == "archive") = false := by
    simpa using hdec
  by_cases h1 : (cfg.shadow_mode || !Plugin.is_in_canary cfg mid) = true
  · exact ⟨"shadow_kept", by simp [Plugin.apply_action, h1, hkeep]⟩
  · exact ⟨"kept_in_inbox", by simp [Plugin.apply_action, h1, hd, hkeep]⟩

/-- Action application when the archive attempt raises and the
compensating keep succeeds. -/
lemma apply_action_archive_fails (cfg : Config.PluginConfig)
    (r : EmailTriageResponse) (rt : Plugin.ActionRuntime) (mid : String)
    (hshadow : cfg.shadow_mode = false)
    (hcanary : Plugin.is_in_canary cfg mid = true)
    (hdec : r.decision = "archive")
    (hen : cfg.email_triage_archive_enabled = true)
    (harch : rt.archiveRaises mid = true) (hkeep : rt.keepRaises mid = false) :
    Plugin.apply_action cfg r rt mid =
      (Except.ok "action_failed",
       [Plugin.RtCall.archive_email mid, Plugin.RtCall.keep_in_inbox mid]) := by
  simp [Plugin.apply_action, hshadow, hcanary, hdec, hen, harch, hkeep]

/-- A pattern whose first token requires a character the head does not
satisfy cannot match. -/
lemma matchToks_head_none (p : Char → Bool) (ts : List Re.Tok) (c : Char)
    (s : List Char) (h : p c = false) :
    Re.matchToks (Re.Tok.one p :: ts) (c :: s) = Option.none := by
  simp [Re.matchToks, h]

/-- Substitution by a pattern whose first token no character of the
subject satisfies is the identity. -/
lemma subFuel_id (p : Char → Bool) (ts : List Re.Tok) (repl : List Char) :
    ∀ fuel s, (∀ c ∈ s, p c = false) →
    Re.subFuel (Re.Tok.one p :: ts) repl fuel s = s := by
  intro fuel
  induction fuel with
  | zero => intro s _; cases s <;> rfl
  | succ f ih =>
    intro s h
    cases s with
    | nil => rfl
    | cons c rest =>
      rw [Re.subFuel, matchToks_head_none p ts c rest (h c (List.mem_cons_self c rest))]
      exact congrArg (List.cons c) (ih rest (fun x hx => h x (List.mem_cons_of_mem c hx)))

/-- The email substitution is the identity on backslash-free strings. -/
lemma reSub_email_id (s : String)
    (h : ∀ c ∈ s.data, (c == Telemetry.bslash) = false) :
    Re.reSub Telemetry.emailPattern "[email]" s = s := by
  unfold Re.reSub Telemetry.emailPattern
  rw [subFuel_id _ _ _ _ s.data h]

/-- The long-number substitution is the identity on backslash-free
strings. -/
lemma reSub_number_id (s : String)
    (h : ∀ c ∈ s.data, (c == Telemetry.bslash) = false) :
    Re.reSub Telemetry.longNumberPattern "[number]" s = s := by
  unfold Re.reSub Telemetry.longNumberPattern
  rw [subFuel_id _ _ _ _ s.data h]

/-- Both compiled telemetry patterns demand a literal backslash, so
`redact_snippet` is the identity on backslash-free bodies of at most 180
characters: no email address or digit run in ordinary text is ever
replaced. -/
lemma redact_snippet_id_of_no_backslash (s : String)
    (hlen : s.data.length ≤ 180)
    (h : ∀ c ∈ s.data, (c == Telemetry.bslash) = false) :
    Telemetry.redact_snippet s 180 = s := by
  unfold Telemetry.redact_snippet
  rw [show String.mk (s.data.take 180) = s from by
    rw [List.take_of_length_le hlen]]
  rw [reSub_email_id s h, reSub_number_id s h]

/- ------------------------------------------------------------------ -/
/- Claim theorems                                                      -/
/- ------------------------------------------------------------------ -/

/-- C7: the retry executor invokes the operation at most N+1 times; each
failure at invocation k with retries remaining sleeps (B/1000)·2^k (the
argument handed to `sleep_fn`, in seconds, for base backoff B
milliseconds); the value of the first successful invocation is returned after
exactly the sleeps of the failed invocations before it; and when every
invocation fails, the last error is propagated unchanged after N
sleeps. -/
theorem C7_retry_executor (outcomes : Nat → Except E A) (N : Nat) (B : ℚ) :
    (run_with_retries outcomes N B).calls ≤ N + 1 ∧
    (∀ k v, k ≤ N → (∀ j, j < k → ∃ e, outcomes j = Except.error e) →
      outcomes k = Except.ok v →
      run_with_retries outcomes N B =
        ⟨Except.ok v, (List.range k).map (fun j => (B / 1000) * 2 ^ j), k + 1⟩) ∧
    ((∀ j, j ≤ N → ∃ e, outcomes j = Except.error e) →
      ∃ e, outcomes N = Except.error e ∧
        run_with_retries outcomes N B =
          ⟨Except.error e, (List.range N).map (fun j => (B / 1000) * 2 ^ j), N + 1⟩) := by
  refine ⟨runWithRetriesFrom_calls_le outcomes B N 0, ?_, ?_⟩
  · intro k v hk hfail hok
    have := runWithRetriesFrom_succeeds outcomes B v k 0 N hk
      (fun j hj => by simpa using hfail j hj) (by simpa using hok)
    simpa [run_with_retries] using this
  · intro hfail
    obtain ⟨e, he, hrun⟩ := runWithRetriesFrom_fails outcomes B N 0
      (fun j hj => by simpa using hfail j hj)
    exact ⟨e, by simpa using he, by simpa [run_with_retries] using hrun⟩

/-- The concrete retry example of the spec: failing twice then succeeding with
max_retries = 2 and base backoff 200 ms returns the success value after
exactly two sleeps, of 0.2 s and 0.4 s. -/
theorem C7_retry_executor_witness :
    run_with_retries (fun n => if n < 2 then Except.error "down" else Except.ok (7 : Nat)) 2 200 =
      ⟨Except.ok 7, [1 / 5, 2 / 5], 3⟩ := by
  have h := (C7_retry_executor
      (fun n => if n < 2 then Except.error "down" else Except.ok (7 : Nat)) 2 200).2.1
      2 7 (by omega)
      (fun j hj => ⟨"down", by interval_cases j <;> rfl⟩) (by rfl)
  rw [h]
  norm_num [List.range_succ]

/-- C3: the local threshold re-check downgrades an "archive" response
with confidence strictly below the configured threshold to a new
needs_attention response that preserves confidence, rule, source, model
version and latency, sets threshold_used to the configured threshold, and
states both compared values formatted to three decimals; responses at or
above the threshold, and needs_attention responses, pass through
unchanged. -/
theorem C3_threshold_downgrade (cfg : Config.PluginConfig) (r : EmailTriageResponse) :
    (r.decision = "archive" → r.confidence < cfg.archive_confidence_threshold →
      Plugin.thresholdCheck cfg r =
        { decision := "needs_attention"
          confidence := r.confidence
          source := r.source
          reasoning := "archive confidence below threshold (" ++ fmt3 r.confidence ++
            " < " ++ fmt3 cfg.archive_confidence_threshold ++ ")"
          rule := r.rule
          model_version := r.model_version
          threshold_used := cfg.archive_confidence_threshold
          latency_ms := r.latency_ms }) ∧
    (cfg.archive_confidence_threshold ≤ r.confidence →
      Plugin.thresholdCheck cfg r = r) ∧
    (r.decision = "needs_attention" → Plugin.thresholdCheck cfg r = r) := by
  refine ⟨?_, ?_, ?_⟩
  · intro h1 h2
    rw [Plugin.thresholdCheck, if_pos ⟨h1, h2⟩]
  · intro h
    rw [Plugin.thresholdCheck, if_neg]
    rintro ⟨_, h2⟩
    exact absurd h (not_le.mpr h2)
  · intro h
    exact thresholdCheck_not_archive cfg r (by rw [h]; decide)

/-- The concrete downgrade example of the spec: archive at 0.900 against
threshold 0.995 becomes needs_attention with threshold_used 0.995 and the
two values spelled in the reasoning. -/
theorem C3_threshold_downgrade_witness :
    Plugin.thresholdCheck Fixtures.cfg0 Fixtures.respLow =
      { decision := "needs_attention"
        confidence := 9 / 10
        source := "v1"
        reasoning := "archive confidence below threshold (0.900 < 0.995)"
        rule := Option.none
        model_version := "v1"
        threshold_used := 995 / 1000
        latency_ms := 10 } := by
  rw [(C3_threshold_downgrade Fixtures.cfg0 Fixtures.respLow).1 (by with_unfolding_all decide)
    (by with_unfolding_all decide)]
  with_unfolding_all decide

/-- C8: canary membership is always granted at p ≥ 100 and always denied
at p ≤ 0; strictly between, it holds exactly when the first eight hex
digits of the SHA-256 digest of the message id, read as an unsigned
integer and reduced modulo 100, are below ⌊p⌋; and it is monotone in p.
(Determinism is intrinsic: the embedding is a pure function of the
message id and the configuration.) -/
theorem C8_canary_selector (cfg cfg2 : Config.PluginConfig) (m : String) :
    (100 ≤ cfg.canary_percent → Plugin.is_in_canary cfg m = true) ∧
    (cfg.canary_percent ≤ 0 → Plugin.is_in_canary cfg m = false) ∧
    (0 < cfg.canary_percent → cfg.canary_percent < 100 →
      (Plugin.is_in_canary cfg m = true ↔
        ((SHA256.hexToNat (String.mk ((SHA256.hexdigest m).data.take 8)) % 100 : Nat) : Int) <
          ⌊cfg.canary_percent⌋)) ∧
    (cfg.canary_percent ≤ cfg2.canary_percent →
      Plugin.is_in_canary cfg m = true → Plugin.is_in_canary cfg2 m = true) := by
  have middle : ∀ c : Config.PluginConfig, 0 < c.canary_percent →
      c.canary_percent < 100 →
      (Plugin.is_in_canary c m = true ↔
        ((SHA256.hexToNat (String.mk ((SHA256.hexdigest m).data.take 8)) % 100 : Nat) : Int) <
          ⌊c.canary_percent⌋) := by
    intro c h0 h100
    rw [Plugin.is_in_canary, if_neg (not_le.mpr h100), if_neg (not_le.mpr h0),
      tdiv_num_den_eq_floor _ h0]
    simp only [decide_eq_true_eq]
  refine ⟨?_, ?_, middle cfg, ?_⟩
  · intro h
    rw [Plugin.is_in_canary, if_pos h]
  · intro h
    rw [Plugin.is_in_canary, if_neg (by intro h100; linarith), if_pos h]
  · intro hle htrue
    by_cases hA : 100 ≤ cfg2.canary_percent
    · rw [Plugin.is_in_canary, if_pos hA]
    · by_cases hB : 100 ≤ cfg.canary_percent
      · exact absurd (le_trans hB hle) hA
      · by_cases hC : cfg.canary_percent ≤ 0
        · rw [Plugin.is_in_canary, if_neg hB, if_pos hC] at htrue
          exact absurd htrue (by decide)
        · have h0 : 0 < cfg.canary_percent := not_le.mp hC
          have h02 : 0 < cfg2.canary_percent := lt_of_lt_of_le h0 hle
          have hbucket := (middle cfg h0 (not_le.mp hB)).mp htrue
          exact (middle cfg2 h02 (not_le.mp hA)).mpr
            (lt_of_lt_of_le hbucket (Int.floor_le_floor hle))

set_option maxRecDepth 40000 in
/-- Concrete canary checks: message m1 (bucket 53) is selected at 100 %
and at 60 % (via the hash formula, the digest evaluated in-kernel). -/
theorem C8_canary_selector_witness :
    Plugin.is_in_canary Fixtures.cfg0 "m1" = true ∧
    Plugin.is_in_canary Fixtures.cfg60 "m1" = true :=
  ⟨(C8_canary_selector Fixtures.cfg0 Fixtures.cfg0 "m1").1 (by decide),
   ((C8_canary_selector Fixtures.cfg60 Fixtures.cfg60 "m1").2.2.1
      (by decide) (by decide)).mpr (by decide)⟩

/-- C9: the duplicate-skip path returns a dictionary holding exactly the
keys action_status, decision, source and model_version, in that order —
confidence, rule, reasoning, threshold_used and latency_ms are absent. -/
theorem C9_duplicate_result_shape (cfg : Config.PluginConfig)
    (store : Idempotency.Ledger) (request : EmailTriageRequest)
    (classify : Nat → Except String EmailTriageResponse)
    (rt : Plugin.ActionRuntime) (now : String)
    (h : Idempotency.is_applied store request.message_id cfg.model_version = true) :
    (Plugin.execute cfg store request classify rt now).result =
      Except.ok (Plugin.duplicateResultDict cfg) ∧
    (Plugin.duplicateResultDict cfg).map Prod.fst =
      ["action_status", "decision", "source", "model_version"] := by
  exact ⟨by simp [Plugin.execute, h], rfl⟩

/-- C1: a first, successfully resolving invocation returns a resolved
action status and writes exactly one ledger entry; a second invocation for
the same message id and model version returns the four-key
duplicate_skipped dictionary, logs one telemetry event carrying the
synthesized zero-confidence needs_attention response with reasoning
"duplicate message skipped by idempotency guard", performs no inference
call and no runtime call, and leaves the ledger unchanged, so the runtime
side effect happens exactly once across the two invocations. -/
theorem C1_pipeline_idempotency (cfg : Config.PluginConfig)
    (store : Idempotency.Ledger) (request : EmailTriageRequest)
    (classify classify2 : Nat → Except String EmailTriageResponse)
    (rt rt2 : Plugin.ActionRuntime) (now now2 : String)
    (hfresh : Idempotency.is_applied store request.message_id cfg.model_version = false)
    (hok : ∃ d, (Plugin.execute cfg store request classify rt now).result = Except.ok d) :
    (∃ status response, (Plugin.execute cfg store request classify rt now).result =
        Except.ok (Plugin.resultDictOf status response)) ∧
    (Plugin.execute cfg store request classify rt now).store =
      Idempotency.mark_applied store request.message_id cfg.model_version ∧
    Plugin.execute cfg (Plugin.execute cfg store request classify rt now).store
        request classify2 rt2 now2 =
      ⟨Except.ok (Plugin.duplicateResultDict cfg),
       (Plugin.execute cfg store request classify rt now).store,
       [Telemetry.build_decision_event request (Plugin.duplicateResponse cfg)
         "duplicate_skipped" now2], [], 0⟩ := by
  have key : (∃ status response,
      (Plugin.execute cfg store request classify rt now).result =
        Except.ok (Plugin.resultDictOf status response)) ∧
      (Plugin.execute cfg store request classify rt now).store =
        Idempotency.mark_applied store request.message_id cfg.model_version := by
    cases hres : (run_with_retries classify cfg.inference_retries.toNat
        (cfg.inference_backoff_ms : ℚ)).result with
    | ok r =>
      rw [execute_fresh_ok cfg store request classify rt now r hfresh hres] at hok ⊢
      obtain ⟨⟨fst, cs⟩, happ⟩ :
          ∃ p, Plugin.apply_action cfg (Plugin.thresholdCheck cfg r) rt
            request.message_id = p := ⟨_, rfl⟩
      cases fst with
      | error eA =>
        rw [executeTail_err cfg store request rt now r _ eA cs happ] at hok
        obtain ⟨d, hd⟩ := hok
        exact absurd hd (by simp)
      | ok st =>
        rw [executeTail_ok cfg store request rt now r _ st cs happ]
        exact ⟨⟨st, Plugin.thresholdCheck cfg r, rfl⟩, rfl⟩
    | error e =>
      rw [execute_fresh_err cfg store request classify rt now e hfresh hres] at hok ⊢
      cases hfo : cfg.email_triage_fail_open with
      | false =>
        rw [if_pos hfo] at hok
        obtain ⟨d, hd⟩ := hok
        exact absurd hd (by simp)
      | true =>
        rw [if_neg (by simp [hfo])] at hok ⊢
        obtain ⟨⟨fst, cs⟩, happ⟩ :
            ∃ p, Plugin.apply_action cfg
              (Plugin.thresholdCheck cfg (Plugin.failOpenResponse cfg e)) rt
              request.message_id = p := ⟨_, rfl⟩
        cases fst with
        | error eA =>
          rw [executeTail_err cfg store request rt now _ _ eA cs happ] at hok
          obtain ⟨d, hd⟩ := hok
          exact absurd hd (by simp)
        | ok st =>
          rw [executeTail_ok cfg store request rt now _ _ st cs happ]
          exact ⟨⟨st, Plugin.thresholdCheck cfg (Plugin.failOpenResponse cfg e), rfl⟩, rfl⟩
  refine ⟨key.1, key.2, ?_⟩
  refine execute_duplicate cfg _ request classify2 rt2 now2 ?_
  rw [key.2]
  exact is_applied_mark_applied store request.message_id cfg.model_version

/-- The test-suite idempotency run: with the test configuration, message
m1 archives on the first call and duplicate-skips on the second, with no
further inference or runtime activity. -/
theorem C1_pipeline_idempotency_witness :
    (∃ status response,
      (Plugin.execute Fixtures.cfg0 [] Fixtures.req0 Fixtures.clsOk Fixtures.rtOk "T1").result =
        Except.ok (Plugin.resultDictOf status response)) ∧
    (Plugin.execute Fixtures.cfg0 [] Fixtures.req0 Fixtures.clsOk Fixtures.rtOk "T1").store =
      Idempotency.mark_applied [] Fixtures.req0.message_id Fixtures.cfg0.model_version ∧
    Plugin.execute Fixtures.cfg0
        (Plugin.execute Fixtures.cfg0 [] Fixtures.req0 Fixtures.clsOk Fixtures.rtOk "T1").store
        Fixtures.req0 Fixtures.clsOk Fixtures.rtOk "T2" =
      ⟨Except.ok (Plugin.duplicateResultDict Fixtures.cfg0),
       (Plugin.execute Fixtures.cfg0 [] Fixtures.req0 Fixtures.clsOk Fixtures.rtOk "T1").store,
       [Telemetry.build_decision_event Fixtures.req0
         (Plugin.duplicateResponse Fixtures.cfg0) "duplicate_skipped" "T2"], [], 0⟩ :=
  C1_pipeline_idempotency Fixtures.cfg0 [] Fixtures.req0 Fixtures.clsOk Fixtures.clsOk
    Fixtures.rtOk Fixtures.rtOk "T1" "T2" (by decide)
    ⟨Plugin.resultDictOf "archived" Fixtures.respArchive, by with_unfolding_all rfl⟩

/-- C2: when the retry-wrapped inference call fails, a non-fail-open
configuration propagates the error with no ledger write, no telemetry and
no runtime call; a fail-open configuration synthesizes the zero-confidence
needs_attention response with latency 0 and the error text embedded in its
reasoning, keeps the message in the inbox, writes the ledger and returns a
successful needs_attention result. -/
theorem C2_fail_open_behaviour (cfg : Config.PluginConfig)
    (store : Idempotency.Ledger) (request : EmailTriageRequest)
    (classify : Nat → Except String EmailTriageResponse)
    (rt : Plugin.ActionRuntime) (now : String) (e : String)
    (hfresh : Idempotency.is_applied store request.message_id cfg.model_version = false)
    (herr : (run_with_retries classify cfg.inference_retries.toNat
      (cfg.inference_backoff_ms : ℚ)).result = Except.error e) :
    (cfg.email_triage_fail_open = false →
      Plugin.execute cfg store request classify rt now =
        ⟨Except.error (Plugin.PipeError.inference e), store, [], [],
         (run_with_retries classify cfg.inference_retries.toNat
           (cfg.inference_backoff_ms : ℚ)).calls⟩) ∧
    (cfg.email_triage_fail_open = true → rt.keepRaises request.message_id = false →
      (Plugin.failOpenResponse cfg e).decision = "needs_attention" ∧
      (Plugin.failOpenResponse cfg e).confidence = 0 ∧
      (Plugin.failOpenResponse cfg e).latency_ms = 0 ∧
      (Plugin.failOpenResponse cfg e).reasoning =
        "fail-open due to inference error: " ++ e ∧
      ∃ status, Plugin.execute cfg store request classify rt now =
        ⟨Except.ok (Plugin.resultDictOf status (Plugin.failOpenResponse cfg e)),
         Idempotency.mark_applied store request.message_id cfg.model_version,
         [Telemetry.build_decision_event request (Plugin.failOpenResponse cfg e)
           status now],
         [Plugin.RtCall.keep_in_inbox request.message_id],
         (run_with_retries classify cfg.inference_retries.toNat
           (cfg.inference_backoff_ms : ℚ)).calls⟩) := by
  constructor
  · intro hfo
    rw [execute_fresh_err cfg store request classify rt now e hfresh herr, if_pos hfo]
  · intro hfo hkeep
    have hnotarch : (Plugin.failOpenResponse cfg e).decision ≠ "archive" := by
      simp [Plugin.failOpenResponse]
    have hthr : Plugin.thresholdCheck cfg (Plugin.failOpenResponse cfg e) =
        Plugin.failOpenResponse cfg e :=
      thresholdCheck_not_archive cfg _ hnotarch
    obtain ⟨st, happ⟩ := apply_action_not_archive cfg (Plugin.failOpenResponse cfg e)
      rt request.message_id hnotarch hkeep
    refine ⟨rfl, rfl, rfl, rfl, st, ?_⟩
    rw [execute_fresh_err cfg store request classify rt now e hfresh herr,
      if_neg (by simp [hfo]),
      executeTail_ok cfg store request rt now _ _ st _ (by rw [hthr]; exact happ),
      hthr]

/-- The test-suite fail-open and fail-closed runs for an inference client
that always raises "down". -/
theorem C2_fail_open_behaviour_witness :
    Plugin.execute Fixtures.cfgClosed [] Fixtures.req0 Fixtures.clsFail Fixtures.rtOk "T" =
      ⟨Except.error (Plugin.PipeError.inference "down"), [], [], [], 3⟩ ∧
    ∃ status, Plugin.execute Fixtures.cfg0 [] Fixtures.req0 Fixtures.clsFail Fixtures.rtOk "T" =
      ⟨Except.ok (Plugin.resultDictOf status (Plugin.failOpenResponse Fixtures.cfg0 "down")),
       Idempotency.mark_applied [] Fixtures.req0.message_id Fixtures.cfg0.model_version,
       [Telemetry.build_decision_event Fixtures.req0
         (Plugin.failOpenResponse Fixtures.cfg0 "down") status "T"],
       [Plugin.RtCall.keep_in_inbox Fixtures.req0.message_id], 3⟩ := by
  constructor
  · have h := (C2_fail_open_behaviour Fixtures.cfgClosed [] Fixtures.req0 Fixtures.clsFail
      Fixtures.rtOk "T" "down" (by decide) (by with_unfolding_all rfl)).1 rfl
    simpa using h
  · obtain ⟨-, -, -, -, st, h⟩ := (C2_fail_open_behaviour Fixtures.cfg0 [] Fixtures.req0
      Fixtures.clsFail Fixtures.rtOk "T" "down" (by decide) (by with_unfolding_all rfl)).2
      rfl rfl
    exact ⟨st, by simpa using h⟩

/-- C6 as stated is false: an action-runtime error is not always
absorbed.  With shadow mode on and a runtime whose keep_in_inbox raises,
the error propagates out of the pipeline. -/
theorem C6_runtime_error_counterexample :
    (Plugin.execute Fixtures.cfgShadow [] Fixtures.req0 Fixtures.clsOk
        Fixtures.rtKeepFails "T").result =
      Except.error (Plugin.PipeError.runtime (Plugin.RtCall.keep_in_inbox "m1")) := by
  with_unfolding_all rfl

/-- C6 (amended): an error raised by archive_email is absorbed — provided
the compensating keep_in_inbox itself does not raise, the pipeline invokes
keep_in_inbox after the failed archive, reports action_failed, still
writes the ledger entry and the telemetry event, and returns a successful
result. -/
theorem C6_archive_failure_contained (cfg : Config.PluginConfig)
    (store : Idempotency.Ledger) (request : EmailTriageRequest)
    (rt : Plugin.ActionRuntime) (now : String) (r0 : EmailTriageResponse) (n : Nat)
    (hshadow : cfg.shadow_mode = false)
    (hcanary : Plugin.is_in_canary cfg request.message_id = true)
    (hen : cfg.email_triage_archive_enabled = true)
    (hdec : (Plugin.thresholdCheck cfg r0).decision = "archive")
    (harch : rt.archiveRaises request.message_id = true)
    (hkeep : rt.keepRaises request.message_id = false) :
    Plugin.executeTail cfg store request rt now r0 n =
      ⟨Except.ok (Plugin.resultDictOf "action_failed" (Plugin.thresholdCheck cfg r0)),
       Idempotency.mark_applied store request.message_id cfg.model_version,
       [Telemetry.build_decision_event request (Plugin.thresholdCheck cfg r0)
         "action_failed" now],
       [Plugin.RtCall.archive_email request.message_id,
        Plugin.RtCall.keep_in_inbox request.message_id], n⟩ :=
  executeTail_ok cfg store request rt now r0 n "action_failed" _
    (apply_action_archive_fails cfg (Plugin.thresholdCheck cfg r0) rt
      request.message_id hshadow hcanary hdec hen harch hkeep)

/-- Concrete contained archive failure: the test configuration, a raising
archive_email and a working keep_in_inbox. -/
theorem C6_archive_failure_contained_witness :
    Plugin.executeTail Fixtures.cfg0 [] Fixtures.req0 Fixtures.rtArchiveFails "T"
        Fixtures.respArchive 1 =
      ⟨Except.ok (Plugin.resultDictOf "action_failed"
         (Plugin.thresholdCheck Fixtures.cfg0 Fixtures.respArchive)),
       Idempotency.mark_applied [] Fixtures.req0.message_id Fixtures.cfg0.model_version,
       [Telemetry.build_decision_event Fixtures.req0
         (Plugin.thresholdCheck Fixtures.cfg0 Fixtures.respArchive) "action_failed" "T"],
       [Plugin.RtCall.archive_email Fixtures.req0.message_id,
        Plugin.RtCall.keep_in_inbox Fixtures.req0.message_id], 1⟩ :=
  C6_archive_failure_contained Fixtures.cfg0 [] Fixtures.req0 Fixtures.rtArchiveFails
    "T" Fixtures.respArchive 1 rfl (by decide) rfl
    (by with_unfolding_all decide) rfl rfl

/-- Concrete duplicate-skip result shape for message m1 already in the
ledger. -/
theorem C9_duplicate_result_shape_witness :
    (Plugin.execute Fixtures.cfg0 [("m1", "v1")] Fixtures.req0 Fixtures.clsOk
        Fixtures.rtOk "T").result =
      Except.ok (Plugin.duplicateResultDict Fixtures.cfg0) ∧
    (Plugin.duplicateResultDict Fixtures.cfg0).map Prod.fst =
      ["action_status", "decision", "source", "model_version"] :=
  C9_duplicate_result_shape Fixtures.cfg0 [("m1", "v1")] Fixtures.req0
    Fixtures.clsOk Fixtures.rtOk "T" (by decide)

/-- C4 fails on the code: the two redaction patterns were compiled from
raw strings with doubled backslashes (telemetry.py lines 15-16), so each
requires literal backslash characters in the body and never matches an
ordinary address or digit run.  At the failing input the snippet stored in
the decision event is the raw body, email address and 6-digit run
intact. -/
theorem C4_redaction_is_inert :
    Telemetry.redact_snippet "promo@example.com ref 123456" 180 =
      "promo@example.com ref 123456" ∧
    (Telemetry.build_decision_event Fixtures.reqLeaky Fixtures.respArchive
        "archived" "T").snippet_redacted = "promo@example.com ref 123456" ∧
    Telemetry.redact_snippet "3842-1234567" 180 = "3842-1234567" :=
  ⟨by decide, by decide, by decide⟩

/-- The merged base URL is falsy exactly when the configuration value is
untruthy and the environment variable is unset or empty. -/
lemma truthy_mergedBaseUrl_iff (conf : Config.RawConf) (env : Config.EnvMap) :
    Config.truthy (Config.mergedBaseUrl conf env) = false ↔
    (Config.truthy (Config.getv conf.inference_base_url) = false ∧
      (env.EMAIL_TRIAGE_INFERENCE_BASE_URL = Option.none ∨
       env.EMAIL_TRIAGE_INFERENCE_BASE_URL = Option.some "")) := by
  unfold Config.mergedBaseUrl
  cases hc : Config.truthy (Config.getv conf.inference_base_url) with
  | true => simp [hc]
  | false =>
    cases he : env.EMAIL_TRIAGE_INFERENCE_BASE_URL with
    | none => simp [hc, Config.truthy]
    | some s => simp [hc, Config.truthy]

/-- The function `from_sources` raises exactly when the merged base URL is falsy. -/
lemma from_sources_error_iff (conf : Config.RawConf) (env : Config.EnvMap) :
    (∃ err, Config.from_sources conf env = Except.error err) ↔
    (Config.truthy (Config.getv conf.inference_base_url) = false ∧
      (env.EMAIL_TRIAGE_INFERENCE_BASE_URL = Option.none ∨
       env.EMAIL_TRIAGE_INFERENCE_BASE_URL = Option.some "")) := by
  rw [← truthy_mergedBaseUrl_iff conf env]
  cases h : Config.truthy (Config.mergedBaseUrl conf env) with
  | true => simp [Config.from_sources, h]
  | false => simp [Config.from_sources, h]

/-- An option string in neither recognized set parses to the default. -/
lemma parse_bool_unrecognized (s : String) (dflt : Bool)
    (h1 : ["1", "true", "yes", "y", "on"].contains
      (Config.pyLower (Config.pyStrip s)) = false)
    (h2 : ["0", "false", "no", "n", "off"].contains
      (Config.pyLower (Config.pyStrip s)) = false) :
    Config.parse_bool (Config.PyVal.str s) dflt = dflt := by
  simp only [Config.parse_bool, h1, h2]
  simp

/-- C10: configuration construction fails exactly when the base URL is
absent or empty in both sources; an out-of-range canary percentage is
clamped into [0, 100]; and malformed numeric or boolean option strings
silently fall back to their defaults instead of failing. -/
theorem C10_config_error_and_fallback (conf : Config.RawConf) (env : Config.EnvMap) :
    ((∀ v, conf.inference_base_url = Option.some v → ∃ s, v = Config.PyVal.str s) →
      ((∃ err, Config.from_sources conf env = Except.error err) ↔
        ((conf.inference_base_url = Option.none ∨
          conf.inference_base_url = Option.some (Config.PyVal.str "")) ∧
         (env.EMAIL_TRIAGE_INFERENCE_BASE_URL = Option.none ∨
          env.EMAIL_TRIAGE_INFERENCE_BASE_URL = Option.some "")))) ∧
    (∀ cfg, Config.from_sources conf env = Except.ok cfg →
      cfg.canary_percent =
        max 0 (min 100 (Config.parse_float (Config.getv conf.canary_percent) 100)) ∧
      0 ≤ cfg.canary_percent ∧ cfg.canary_percent ≤ 100 ∧
      (∀ s, conf.inference_timeout_ms = Option.some (Config.PyVal.str s) →
        Config.pyIntOfString s = Option.none → cfg.inference_timeout_ms = 1500) ∧
      (∀ s, conf.inference_retries = Option.some (Config.PyVal.str s) →
        Config.pyIntOfString s = Option.none → cfg.inference_retries = 2) ∧
      (∀ s, conf.inference_backoff_ms = Option.some (Config.PyVal.str s) →
        Config.pyIntOfString s = Option.none → cfg.inference_backoff_ms = 200) ∧
      (∀ s, conf.archive_confidence_threshold = Option.some (Config.PyVal.str s) →
        Config.pyFloatOfString s = Option.none →
        cfg.archive_confidence_threshold = 995 / 1000) ∧
      (∀ s, Config.envOver env.EMAIL_TRIAGE_ARCHIVE_ENABLED
          conf.email_triage_archive_enabled = Config.PyVal.str s →
        ["1", "true", "yes", "y", "on"].contains (Config.pyLower (Config.pyStrip s)) = false →
        ["0", "false", "no", "n", "off"].contains (Config.pyLower (Config.pyStrip s)) = false →
        cfg.email_triage_archive_enabled = true) ∧
      (∀ s, Config.envOver env.EMAIL_TRIAGE_FAIL_OPEN
          conf.email_triage_fail_open = Config.PyVal.str s →
        ["1", "true", "yes", "y", "on"].contains (Config.pyLower (Config.pyStrip s)) = false →
        ["0", "false", "no", "n", "off"].contains (Config.pyLower (Config.pyStrip s)) = false →
        cfg.email_triage_fail_open = true) ∧
      (∀ s, conf.shadow_mode = Option.some (Config.PyVal.str s) →
        ["1", "true", "yes", "y", "on"].contains (Config.pyLower (Config.pyStrip s)) = false →
        ["0", "false", "no", "n", "off"].contains (Config.pyLower (Config.pyStrip s)) = false →
        cfg.shadow_mode = false)) := by
  constructor
  · intro hstr
    have hiff : Config.truthy (Config.getv conf.inference_base_url) = false ↔
        (conf.inference_base_url = Option.none ∨
         conf.inference_base_url = Option.some (Config.PyVal.str "")) := by
      cases hcu : conf.inference_base_url with
      | none => simp [Config.getv, Config.truthy]
      | some v =>
        obtain ⟨s, rfl⟩ := hstr v hcu
        simp [Config.getv, Config.truthy]
    rw [from_sources_error_iff conf env, hiff]
  · intro cfg hok
    simp only [Config.from_sources] at hok
    split at hok
    · exact absurd hok (by simp)
    · rw [Except.ok.injEq] at hok
      subst hok
      refine ⟨rfl, le_max_left 0 _,
        max_le (by norm_num) (min_le_left 100 _), ?_, ?_, ?_, ?_, ?_, ?_, ?_⟩
      · intro s hs hp
        simp [Config.getv, Config.parse_int, hs, hp]
      · intro s hs hp
        simp [Config.getv, Config.parse_int, hs, hp]
      · intro s hs hp
        simp [Config.getv, Config.parse_int, hs, hp]
      · intro s hs hp
        simp [Config.getv, Config.parse_float, hs, hp]
      · intro s hs h1 h2
        rw [show Config.PluginConfig.email_triage_archive_enabled _ =
          Config.parse_bool (Config.envOver env.EMAIL_TRIAGE_ARCHIVE_ENABLED
            conf.email_triage_archive_enabled) true from rfl, hs]
        exact parse_bool_unrecognized s true h1 h2
      · intro s hs h1 h2
        rw [show Config.PluginConfig.email_triage_fail_open _ =
          Config.parse_bool (Config.envOver env.EMAIL_TRIAGE_FAIL_OPEN
            conf.email_triage_fail_open) true from rfl, hs]
        exact parse_bool_unrecognized s true h1 h2
      · intro s hs h1 h2
        rw [show Config.PluginConfig.shadow_mode _ =
          Config.parse_bool (Config.getv conf.shadow_mode) false from rfl, hs]
        exact parse_bool_unrecognized s false h1 h2

set_option maxRecDepth 40000 in
/-- A missing base URL in both sources fails; the all-malformed
configuration builds with every malformed option at its default and the
out-of-range canary clamped to 100. -/
theorem C10_config_error_and_fallback_witness :
    (∃ err, Config.from_sources Fixtures.confEmpty Fixtures.envEmpty = Except.error err) ∧
    Fixtures.cfgM.canary_percent =
      max 0 (min 100 (Config.parse_float
        (Config.getv Fixtures.confMalformed.canary_percent) 100)) ∧
    Fixtures.cfgM.inference_timeout_ms = 1500 ∧
    Fixtures.cfgM.archive_confidence_threshold = 995 / 1000 ∧
    Fixtures.cfgM.email_triage_archive_enabled = true ∧
    Fixtures.cfgM.shadow_mode = false := by
  have h1 := ((C10_config_error_and_fallback Fixtures.confEmpty Fixtures.envEmpty).1
    (fun v hv => absurd hv (by simp [Fixtures.confEmpty]))).mpr ⟨Or.inl rfl, Or.inl rfl⟩
  have h2 := (C10_config_error_and_fallback Fixtures.confMalformed Fixtures.envEmpty).2
    Fixtures.cfgM (by with_unfolding_all rfl)
  exact ⟨h1, h2.1,
    h2.2.2.2.1 "soon" rfl (by decide),
    h2.2.2.2.2.2.2.1 "very high" rfl (by decide),
    h2.2.2.2.2.2.2.2.1 "definitely" rfl (by decide) (by decide),
    h2.2.2.2.2.2.2.2.2.2 "maybe" rfl (by decide) (by decide)⟩

set_option maxRecDepth 40000 in
/-- C5 fails on the code: `JsonlDecisionSink.log` appends the string
literal `"\\n"` of the source (telemetry.py line 85), which is the two
characters backslash and n, not a newline.  Logging two events therefore
produces a file containing zero newline characters — one unterminated
line, not two lines. -/
theorem C5_sink_writes_no_newline :
    Telemetry.newlineCount
      (Telemetry.jsonlSinkLogAll "" [Fixtures.ev0, Fixtures.ev1]) = 0 :=
  by with_unfolding_all decide

end Triage
